import Mathlib

/-! # L2F-sim: the configuration file reader (`src/utils/cfg_reader.hpp`)

A shallow embedding of `L2Fsim::cfg_reader` and theorems about its readers
`read_st_log_path`, `read_fz_log_path`, `read_time_variables`, `read_state` and its
factories `read_environment`, `read_aircraft`, `read_stepper` and `read_pilot`.

* The scalar type `double` is a type parameter `D` with a multiplication and a
  zero; the constant `TO_RAD` (declared elsewhere in the repository) is a
  parameter of the functions that use it.
* A `std::unique_ptr<T>` is an `Option T`; `none` is the null handle.
* A component is recorded as the constructor call that built it, with its
  arguments in order.
* A call is recorded as the lines it wrote on `std::cout` and the way it ended:
  by returning a value or by letting a libconfig exception escape.
-/

namespace L2Fsim

/-! ## The configuration document (libconfig) -/

/-- Modelled from the spec: a scalar setting of the configuration document, "flat
(non-nested) scalar or string keys"; an integer, a floating-point number or a string. -/
inductive Setting (D : Type) where
  | int (n : Int)
  | float (d : D)
  | string (s : String)
  deriving DecidableEq, Repr

/-- Modelled from the spec: the configuration document, "an opaque key/value store
with typed scalar lookup"; the settings of the root group, in file order. -/
structure Config (D : Type) where
  settings : List (String × Setting D)
  deriving Repr

/-- The exceptions that can escape a call: the two of libconfig that a `lookup` can raise,
and `std::logic_error`, which the standard library raises when a `std::string` is
constructed from a null pointer (the C++ standard leaves that construction undefined;
no implementation makes it the empty string). -/
inductive Exn where
  | SettingNotFoundException
  | SettingTypeException
  | logic_error
  deriving DecidableEq, Repr

section Document
variable {D : Type}

/-- Modelled from the spec: the setting bound to `key`, when there is one. -/
def Config.find (cfg : Config D) (key : String) : Option (Setting D) :=
  cfg.settings.lookup key

/-- Modelled from the spec: `bool exists(key)`. -/
def Config.exists_ (cfg : Config D) (key : String) : Bool :=
  (cfg.find key).isSome

/-- Modelled from the spec: the coercion of a setting to `double`; only a
floating-point setting converts (no automatic int/float conversion). -/
def Setting.toDouble : Setting D → Option D
  | .float d => some d
  | _ => none

/-- Modelled from the spec: the coercion of a setting to `unsigned int`; only an
integer setting converts, a negative one as 0. -/
def Setting.toUInt : Setting D → Option Nat
  | .int n => some n.toNat
  | _ => none

/-- Modelled from the spec: the coercion of a setting to `std::string`. -/
def Setting.toStr : Setting D → Option String
  | .string s => some s
  | _ => none

/-- Modelled from the spec: `bool lookupValue(key, double &out)`, "returning
success/failure without throwing": `some d` is success with `out = d`, `none` is
failure with `out` untouched (key absent or of another type). -/
def Config.lookupValueDouble (cfg : Config D) (key : String) : Option D :=
  (cfg.find key).bind Setting.toDouble

/-- Modelled from the spec: `bool lookupValue(key, unsigned int &out)`. -/
def Config.lookupValueUInt (cfg : Config D) (key : String) : Option Nat :=
  (cfg.find key).bind Setting.toUInt

/-- Modelled from the spec: `bool lookupValue(key, std::string &out)`. -/
def Config.lookupValueString (cfg : Config D) (key : String) : Option String :=
  (cfg.find key).bind Setting.toStr

/-- Modelled from the spec: `T lookup(key)` with coercion, for a target type whose
coercion is `conv`; it throws when the key is absent or of another type. -/
def Config.lookupAs {T : Type} (conv : Setting D → Option T) (cfg : Config D)
    (key : String) : Except Exn T :=
  match cfg.find key with
  | none => .error .SettingNotFoundException
  | some s =>
    match conv s with
    | some v => .ok v
    | none => .error .SettingTypeException

/-- The statement `double v = cfg.lookup(key);`. -/
def Config.lookupDouble (cfg : Config D) (key : String) : Except Exn D :=
  cfg.lookupAs Setting.toDouble key

/-- The statement `unsigned int v = cfg.lookup(key);`. -/
def Config.lookupUInt (cfg : Config D) (key : String) : Except Exn Nat :=
  cfg.lookupAs Setting.toUInt key

/-- The conversion `std::string v = cfg.lookup(key);`, as in `return cfg.lookup(key);`
from a method that returns `std::string`. -/
def Config.lookupString (cfg : Config D) (key : String) : Except Exn String :=
  cfg.lookupAs Setting.toStr key

end Document

/-! ## Components, recorded as constructor calls -/

/-- The environment handle `flight_zone`: `flat_zone(wx, wy)` or
`flat_thermal_soaring_zone(sc_path, envt_cfg_path, noise_stddev)`. -/
inductive flight_zone (D : Type) where
  | flat_zone (wx wy : D)
  | flat_thermal_soaring_zone (sc_path envt_cfg_path : String) (noise_stddev : D)
  deriving DecidableEq, Repr

/-- The ten arguments of `beeler_glider_state(x0,y0,z0,V0,gamma0,khi0,alpha0,beta0,sigma0,mam)`;
also the ten output parameters of `read_state`. -/
structure beeler_glider_state (D : Type) where
  x0 : D
  y0 : D
  z0 : D
  V0 : D
  gamma0 : D
  khi0 : D
  alpha0 : D
  beta0 : D
  sigma0 : D
  mam : D
  deriving DecidableEq, Repr

/-- The default-constructed `beeler_glider_command a;`. -/
structure beeler_glider_command where
  deriving DecidableEq, Repr

/-- The aircraft handle `aircraft`: `beeler_glider(s, a)`. -/
inductive aircraft (D : Type) where
  | beeler_glider (s : beeler_glider_state D) (a : beeler_glider_command)
  deriving DecidableEq, Repr

/-- The stepper handle `stepper`: `euler_integrator(sub_dt)` or `rk4_integrator(sub_dt)`. -/
inductive stepper (D : Type) where
  | euler_integrator (sub_dt : D)
  | rk4_integrator (sub_dt : D)
  deriving DecidableEq, Repr

/-- The pilot handle `pilot`, one constructor per class that `read_pilot` instantiates. -/
inductive pilot (D : Type) where
  | passive_pilot (arm : D)
  | heuristic_pilot (arm kd : D)
  | q_learning_pilot (arm kd ep lr df : D)
  | optimistic_pilot (ac_model : aircraft D) (sc_path envt_cfg_path : String)
      (noise_stddev arm kd dt sdt df : D) (bd : Nat)
  deriving DecidableEq, Repr

/-! ## Calls -/

/-- How a call ended. -/
inductive Completion (α : Type) where
  | returned (v : α)
  | threw (e : Exn)
  deriving DecidableEq, Repr

/-- What a call did: the lines written on `std::cout`, in order, and how it ended. -/
structure Run (α : Type) where
  out : List String
  res : Completion α
  deriving DecidableEq, Repr

/-- The line `error_at(method_name)` writes on `std::cout`. -/
def error_at (method_name : String) : String :=
  "Error: variable initialisation in config file. Config file reader stopped at " ++ method_name

/-! ## `cfg_reader`

In `read_environment` and `read_pilot` the locals of a `case` block that are
initialised before its `lookupValue` chain (`double arm = .1`, ...) are either
overwritten by the chain or, when the chain fails, never read again; a chain
`lookupValue(k1, v1) && ... && lookupValue(kn, vn)` is therefore the
left-to-right, short-circuiting sequence of the `n` reads.  The output
parameters of `read_state` outlive the call and are threaded explicitly.
A `case` block that does not end in `return` or `break` continues into the next
one; each block below takes the lines written so far and names its successor. -/

section Reader
variable {D : Type} [Mul D] [Zero D]

/-- The method `cfg_reader::read_st_log_path` (lines 59-63).  When the key is absent the
method writes its failure line and reaches `return nullptr;`, which constructs the
`std::string` result from a null pointer. -/
def read_st_log_path (cfg : Config D) : Run String :=
  if cfg.exists_ "st_log_path" then
    match cfg.lookupString "st_log_path" with
    | .ok path => ⟨[], .returned path⟩
    | .error e => ⟨[], .threw e⟩
  else ⟨[error_at "read_st_log_path"], .threw .logic_error⟩

/-- The method `cfg_reader::read_fz_log_path` (lines 70-74), of the same shape as
`read_st_log_path`. -/
def read_fz_log_path (cfg : Config D) : Run String :=
  if cfg.exists_ "fz_log_path" then
    match cfg.lookupString "fz_log_path" with
    | .ok path => ⟨[], .returned path⟩
    | .error e => ⟨[], .threw e⟩
  else ⟨[error_at "read_fz_log_path"], .threw .logic_error⟩

/-- The three output parameters `double &t_lim, double &Dt, double &nb_dt` of
`read_time_variables`. -/
structure time_variables (D : Type) where
  t_lim : D
  Dt : D
  nb_dt : D
  deriving DecidableEq, Repr

/-- The method `cfg_reader::read_time_variables` (lines 81-86).  The argument `v` holds the
values the three output parameters have on entry, the value returned the values they have
on exit.  Each `lookupValue` of the condition writes its output as soon as it succeeds. -/
def read_time_variables (cfg : Config D) (v : time_variables D) : Run (time_variables D) :=
  match cfg.lookupValueDouble "limit_time" with
  | none => ⟨[error_at "read_time_variables"], .returned v⟩
  | some t_lim =>
    let v := { v with t_lim := t_lim }
    match cfg.lookupValueDouble "time_step_width" with
    | none => ⟨[error_at "read_time_variables"], .returned v⟩
    | some Dt =>
      let v := { v with Dt := Dt }
      match cfg.lookupValueDouble "nb_sub_time_step" with
      | none => ⟨[error_at "read_time_variables"], .returned v⟩
      | some nb_dt => ⟨[], .returned { v with nb_dt := nb_dt }⟩

/-- The condition of `case 1` of `read_environment` (lines 107-109). -/
def read_environment_case1_fields (cfg : Config D) : Option (String × String × D) := do
  let sc_path ← cfg.lookupValueString "th_scenario_path"
  let envt_cfg_path ← cfg.lookupValueString "envt_cfg_path"
  let noise_stddev ← cfg.lookupValueDouble "noise_stddev"
  pure (sc_path, envt_cfg_path, noise_stddev)

/-- The block `case 1` of `read_environment` (lines 103-112), followed by the end of
the switch and `return nullptr` (line 116). -/
def read_environment_case1 (cfg : Config D) (out : List String) :
    Run (Option (flight_zone D)) :=
  match read_environment_case1_fields cfg with
  | some (sc_path, envt_cfg_path, noise_stddev) =>
    ⟨out, .returned (some (.flat_thermal_soaring_zone sc_path envt_cfg_path noise_stddev))⟩
  | none => ⟨out ++ [error_at "read_environment"], .returned none⟩

/-- The condition of `case 0` of `read_environment` (line 99). -/
def read_environment_case0_fields (cfg : Config D) : Option (D × D) := do
  let wx ← cfg.lookupValueDouble "wx"
  let wy ← cfg.lookupValueDouble "wy"
  pure (wx, wy)

/-- The block `case 0` of `read_environment` (lines 97-102); it has no `break`, so
after `error_at` control continues into `case 1`. -/
def read_environment_case0 (cfg : Config D) (out : List String) :
    Run (Option (flight_zone D)) :=
  match read_environment_case0_fields cfg with
  | some (wx, wy) => ⟨out, .returned (some (.flat_zone wx wy))⟩
  | none => read_environment_case1 cfg (out ++ [error_at "read_environment"])

/-- The method `cfg_reader::read_environment` (lines 93-117). -/
def read_environment (cfg : Config D) : Run (Option (flight_zone D)) :=
  match cfg.lookupValueUInt "envt_selector" with
  | some 0 => read_environment_case0 cfg []
  | some 1 => read_environment_case1 cfg []
  | some _ => ⟨[], .returned none⟩
  | none => ⟨[error_at "read_environment"], .returned none⟩

/-- The six existence checks of `read_state` (lines 141-146). -/
def read_state_angles_exist (cfg : Config D) : Bool :=
  cfg.exists_ "gamma0" && cfg.exists_ "khi0" && cfg.exists_ "alpha0" &&
  cfg.exists_ "beta0" && cfg.exists_ "sigma0" && cfg.exists_ "maximum_angle_magnitude"

/-- The six assignments `_a = cfg.lookup(key); _a *= TO_RAD;` of `read_state` (lines 147-152),
applied to the state `s` whose first four fields are already written. -/
def read_state_angles (TO_RAD : D) (cfg : Config D) (s : beeler_glider_state D) :
    Except Exn (beeler_glider_state D) := do
  let gamma0 ← cfg.lookupDouble "gamma0"
  let khi0 ← cfg.lookupDouble "khi0"
  let alpha0 ← cfg.lookupDouble "alpha0"
  let beta0 ← cfg.lookupDouble "beta0"
  let sigma0 ← cfg.lookupDouble "sigma0"
  let mam ← cfg.lookupDouble "maximum_angle_magnitude"
  pure { s with gamma0 := gamma0 * TO_RAD, khi0 := khi0 * TO_RAD, alpha0 := alpha0 * TO_RAD,
                beta0 := beta0 * TO_RAD, sigma0 := sigma0 * TO_RAD, mam := mam * TO_RAD }

/-- The method `cfg_reader::read_state` (lines 124-155).  The argument `s` holds the values
the ten output parameters have on entry, the value returned the values they have on exit.
Each `lookupValue` of the condition writes its output as soon as it succeeds. -/
def read_state (TO_RAD : D) (cfg : Config D) (s : beeler_glider_state D) :
    Run (beeler_glider_state D) :=
  match cfg.lookupValueDouble "x0" with
  | none => ⟨[error_at "read_state"], .returned s⟩
  | some x0 =>
    let s := { s with x0 := x0 }
    match cfg.lookupValueDouble "y0" with
    | none => ⟨[error_at "read_state"], .returned s⟩
    | some y0 =>
      let s := { s with y0 := y0 }
      match cfg.lookupValueDouble "z0" with
      | none => ⟨[error_at "read_state"], .returned s⟩
      | some z0 =>
        let s := { s with z0 := z0 }
        match cfg.lookupValueDouble "V0" with
        | none => ⟨[error_at "read_state"], .returned s⟩
        | some V0 =>
          let s := { s with V0 := V0 }
          if read_state_angles_exist cfg then
            match read_state_angles TO_RAD cfg s with
            | .ok s => ⟨[], .returned s⟩
            | .error e => ⟨[], .threw e⟩
          else ⟨[error_at "read_state"], .returned s⟩

/-- The locals `double x0=0., y0=0., ..., mam=0.;` (lines 167 and 304). -/
def state_defaults : beeler_glider_state D :=
  ⟨0, 0, 0, 0, 0, 0, 0, 0, 0, 0⟩

/-- The method `cfg_reader::read_aircraft` (lines 162-178). -/
def read_aircraft (TO_RAD : D) (cfg : Config D) : Run (Option (aircraft D)) :=
  if cfg.exists_ "aircraft_selector" then
    match cfg.lookupUInt "aircraft_selector" with
    | .error e => ⟨[], .threw e⟩
    | .ok 0 =>
      match read_state TO_RAD cfg state_defaults with
      | ⟨out, .returned s⟩ => ⟨out, .returned (some (.beeler_glider s {}))⟩
      | ⟨out, .threw e⟩ => ⟨out, .threw e⟩
    | .ok _ => ⟨[error_at "read_aircraft"], .returned none⟩
  else ⟨[error_at "read_aircraft"], .returned none⟩

/-- The method `cfg_reader::read_stepper` (lines 185-199). -/
def read_stepper (cfg : Config D) (sub_dt : D) : Run (Option (stepper D)) :=
  if cfg.exists_ "stepper_selector" then
    match cfg.lookupUInt "stepper_selector" with
    | .error e => ⟨[], .threw e⟩
    | .ok 0 => ⟨[], .returned (some (.euler_integrator sub_dt))⟩
    | .ok 1 => ⟨[], .returned (some (.rk4_integrator sub_dt))⟩
    | .ok _ => ⟨[], .returned none⟩
  else ⟨[error_at "read_stepper"], .returned none⟩

/-- The values read by the condition of `case 4` of `read_pilot`. -/
structure optimistic_fields (D : Type) where
  sc_path : String
  envt_cfg_path : String
  noise_stddev : D
  arm : D
  kd : D
  dt : D
  sdt : D
  df : D
  bd : Nat

/-- The condition of `case 4` of `read_pilot` (lines 294-302). -/
def read_pilot_case4_fields (cfg : Config D) : Option (optimistic_fields D) := do
  let sc_path ← cfg.lookupValueString "th_scenario_path"
  let envt_cfg_path ← cfg.lookupValueString "envt_cfg_path"
  let noise_stddev ← cfg.lookupValueDouble "noise_stddev"
  let arm ← cfg.lookupValueDouble "angle_rate_magnitude"
  let kd ← cfg.lookupValueDouble "kdalpha"
  let dt ← cfg.lookupValueDouble "opt_time_step_width"
  let sdt ← cfg.lookupValueDouble "opt_sub_time_step_width"
  let df ← cfg.lookupValueDouble "opt_discount_factor"
  let bd ← cfg.lookupValueUInt "opt_budget"
  pure ⟨sc_path, envt_cfg_path, noise_stddev, arm, kd, dt, sdt, df, bd⟩

/-- The block `case 4` of `read_pilot` (lines 290-318), followed by the end of the
switch and `return nullptr` (line 322). -/
def read_pilot_case4 (TO_RAD : D) (cfg : Config D) (out : List String) :
    Run (Option (pilot D)) :=
  match read_pilot_case4_fields cfg with
  | some f =>
    match read_state TO_RAD cfg state_defaults with
    | ⟨out', .returned s⟩ =>
      ⟨out ++ out', .returned (some (.optimistic_pilot (.beeler_glider s {})
        f.sc_path f.envt_cfg_path f.noise_stddev (f.arm * TO_RAD) f.kd f.dt f.sdt f.df f.bd))⟩
    | ⟨out', .threw e⟩ => ⟨out ++ out', .threw e⟩
  | none => ⟨out ++ [error_at "read_pilot"], .returned none⟩

/-- The condition of `case 3` of `read_pilot` (lines 242-253); the values read are not
used, only whether all twelve reads succeed. -/
def read_pilot_case3_fields (cfg : Config D) : Option Unit := do
  let _sc_path ← cfg.lookupValueString "th_scenario_path"
  let _envt_cfg_path ← cfg.lookupValueString "envt_cfg_path"
  let _noise_stddev ← cfg.lookupValueDouble "noise_stddev"
  let _arm ← cfg.lookupValueDouble "angle_rate_magnitude"
  let _kd ← cfg.lookupValueDouble "kdalpha"
  let _pr ← cfg.lookupValueDouble "uct_parameter"
  let _dt ← cfg.lookupValueDouble "uct_time_step_width"
  let _sdt ← cfg.lookupValueDouble "uct_sub_time_step_width"
  let _df ← cfg.lookupValueDouble "uct_discount_factor"
  let _hz ← cfg.lookupValueUInt "uct_horizon"
  let _bd ← cfg.lookupValueUInt "uct_budget"
  let _dfplselect ← cfg.lookupValueUInt "uct_default_policy_selector"
  pure ()

/-- The block `case 3` of `read_pilot` (lines 238-289): both branches call `error_at`
(the construction is commented out) and control continues into `case 4`. -/
def read_pilot_case3 (TO_RAD : D) (cfg : Config D) (out : List String) :
    Run (Option (pilot D)) :=
  match read_pilot_case3_fields cfg with
  | some _ => read_pilot_case4 TO_RAD cfg (out ++ [error_at "read_pilot"])
  | none => read_pilot_case4 TO_RAD cfg (out ++ [error_at "read_pilot"])

/-- The condition of `case 2` of `read_pilot` (lines 228-232). -/
def read_pilot_case2_fields (cfg : Config D) : Option (D × D × D × D × D) := do
  let arm ← cfg.lookupValueDouble "angle_rate_magnitude"
  let kd ← cfg.lookupValueDouble "kdalpha"
  let ep ← cfg.lookupValueDouble "q_epsilon"
  let lr ← cfg.lookupValueDouble "q_learning_rate"
  let df ← cfg.lookupValueDouble "q_discount_factor"
  pure (arm, kd, ep, lr, df)

/-- The block `case 2` of `read_pilot` (lines 226-237); after `error_at` control
continues into `case 3`. -/
def read_pilot_case2 (TO_RAD : D) (cfg : Config D) (out : List String) :
    Run (Option (pilot D)) :=
  match read_pilot_case2_fields cfg with
  | some (arm, kd, ep, lr, df) =>
    ⟨out, .returned (some (.q_learning_pilot (arm * TO_RAD) kd ep lr df))⟩
  | none => read_pilot_case3 TO_RAD cfg (out ++ [error_at "read_pilot"])

/-- The condition of `case 1` of `read_pilot` (lines 220-221). -/
def read_pilot_case1_fields (cfg : Config D) : Option (D × D) := do
  let arm ← cfg.lookupValueDouble "angle_rate_magnitude"
  let kd ← cfg.lookupValueDouble "kdalpha"
  pure (arm, kd)

/-- The block `case 1` of `read_pilot` (lines 218-225); after `error_at` control
continues into `case 2`. -/
def read_pilot_case1 (TO_RAD : D) (cfg : Config D) (out : List String) :
    Run (Option (pilot D)) :=
  match read_pilot_case1_fields cfg with
  | some (arm, kd) => ⟨out, .returned (some (.heuristic_pilot (arm * TO_RAD) kd))⟩
  | none => read_pilot_case2 TO_RAD cfg (out ++ [error_at "read_pilot"])

/-- The block `case 0` of `read_pilot` (lines 211-217); after `error_at` control
continues into `case 1`. -/
def read_pilot_case0 (TO_RAD : D) (cfg : Config D) (out : List String) :
    Run (Option (pilot D)) :=
  match cfg.lookupValueDouble "angle_rate_magnitude" with
  | some arm => ⟨out, .returned (some (.passive_pilot (arm * TO_RAD)))⟩
  | none => read_pilot_case1 TO_RAD cfg (out ++ [error_at "read_pilot"])

/-- The method `cfg_reader::read_pilot` (lines 207-323). -/
def read_pilot (TO_RAD : D) (cfg : Config D) : Run (Option (pilot D)) :=
  if cfg.exists_ "pilot_selector" then
    match cfg.lookupUInt "pilot_selector" with
    | .error e => ⟨[], .threw e⟩
    | .ok 0 => read_pilot_case0 TO_RAD cfg []
    | .ok 1 => read_pilot_case1 TO_RAD cfg []
    | .ok 2 => read_pilot_case2 TO_RAD cfg []
    | .ok 3 => read_pilot_case3 TO_RAD cfg []
    | .ok 4 => read_pilot_case4 TO_RAD cfg []
    | .ok _ => ⟨[], .returned none⟩
  else ⟨[error_at "read_pilot"], .returned none⟩

end Reader

/-- The ten keys of the state vector, in the order `read_state` tests them. -/
def state_keys : List String :=
  ["x0", "y0", "z0", "V0", "gamma0", "khi0", "alpha0", "beta0", "sigma0",
   "maximum_angle_magnitude"]

/-- The three keys of the time variables, in the order `read_time_variables` reads them. -/
def time_keys : List String :=
  ["limit_time", "time_step_width", "nb_sub_time_step"]

/-- The angular-rate magnitude `arm` a pilot was constructed with. -/
def pilot.arm {D : Type} : pilot D → D
  | .passive_pilot arm => arm
  | .heuristic_pilot arm _ => arm
  | .q_learning_pilot arm _ _ _ _ => arm
  | .optimistic_pilot _ _ _ _ arm _ _ _ _ _ => arm

/-- The selector value of the `case` block of `read_pilot` that constructs a pilot of this
class. -/
def pilot.variant {D : Type} : pilot D → Nat
  | .passive_pilot _ => 0
  | .heuristic_pilot _ _ => 1
  | .q_learning_pilot _ _ _ _ _ => 2
  | .optimistic_pilot _ _ _ _ _ _ _ _ _ _ => 4

/-! ## Example documents

The scalar type is `ℚ` in the examples; `TO_RAD_example` stands for the constant `TO_RAD`. -/

/-- A value for `TO_RAD` in the examples. -/
def TO_RAD_example : ℚ := 0.01745329251

/-- A complete state vector, as ten settings. -/
def state_settings : List (String × Setting ℚ) :=
  [("x0", .float 0), ("y0", .float 0), ("z0", .float 1000), ("V0", .float 20),
   ("gamma0", .float 0), ("khi0", .float 90), ("alpha0", .float 2), ("beta0", .float 0),
   ("sigma0", .float 5), ("maximum_angle_magnitude", .float 30)]

/-- The settings of the optimistic planner that are not shared with other pilots. -/
def opt_settings : List (String × Setting ℚ) :=
  [("opt_time_step_width", .float 0.1), ("opt_sub_time_step_width", .float 0.1),
   ("opt_discount_factor", .float 0.9), ("opt_budget", .int 1000)]

/-- The settings of the thermal soaring zone. -/
def thermal_settings : List (String × Setting ℚ) :=
  [("th_scenario_path", .string "config/thermal_scenario.csv"),
   ("envt_cfg_path", .string "config/fz_config.csv"), ("noise_stddev", .float 0.1)]

/-- Pilot selector 2 (Q-learning) without `q_epsilon`, in a document that also holds
the settings of the optimistic planner and a state vector. -/
def doc_q_learning_no_epsilon : Config ℚ :=
  ⟨[("pilot_selector", .int 2), ("angle_rate_magnitude", .float 15), ("kdalpha", .float 0.02),
    ("q_learning_rate", .float 0.01), ("q_discount_factor", .float 0.9)]
    ++ thermal_settings ++ opt_settings ++ state_settings⟩

/-- Pilot selector 3 (UCT) with its twelve fields, in a document that also holds the
`opt_*` settings and a state vector. -/
def doc_uct_complete : Config ℚ :=
  ⟨[("pilot_selector", .int 3), ("angle_rate_magnitude", .float 15), ("kdalpha", .float 0.02),
    ("uct_parameter", .float 0.7), ("uct_time_step_width", .float 0.1),
    ("uct_sub_time_step_width", .float 0.1), ("uct_discount_factor", .float 0.9),
    ("uct_horizon", .int 100), ("uct_budget", .int 1000),
    ("uct_default_policy_selector", .int 0)]
    ++ thermal_settings ++ opt_settings ++ state_settings⟩

/-- Environment selector 0 (flat zone) with `wx` but without `wy`, in a document that
also holds the settings of the thermal soaring zone. -/
def doc_flat_zone_no_wy : Config ℚ :=
  ⟨[("envt_selector", .int 0), ("wx", .float 3.0)] ++ thermal_settings⟩

/-- Aircraft selector 0 with a state vector that lacks `maximum_angle_magnitude`. -/
def doc_glider_no_mam : Config ℚ :=
  ⟨[("aircraft_selector", .int 0), ("x0", .float 0), ("y0", .float 0), ("z0", .float 1000),
    ("V0", .float 20), ("gamma0", .float 0), ("khi0", .float 90), ("alpha0", .float 2),
    ("beta0", .float 0), ("sigma0", .float 5)]⟩

/-- Scenario D: selector 7 for every family, with a complete state vector. -/
def doc_selector_7 : Config ℚ :=
  ⟨[("aircraft_selector", .int 7), ("envt_selector", .int 7), ("pilot_selector", .int 7),
    ("stepper_selector", .int 7), ("wx", .float 3.0), ("wy", .float (-1.5)),
    ("angle_rate_magnitude", .float 15), ("kdalpha", .float 0.02)] ++ state_settings⟩

/-- Stepper selector 1. -/
def doc_rk4 : Config ℚ :=
  ⟨[("stepper_selector", .int 1)]⟩

/-- Scenario A: environment selector 0, `wx = 3.0`, `wy = -1.5`. -/
def doc_scenario_A : Config ℚ :=
  ⟨[("envt_selector", .int 0), ("wx", .float 3.0), ("wy", .float (-1.5))]⟩

/-- Scenario B: pilot selector 1, `angle_rate_magnitude = 15`, `kdalpha = 0.02`. -/
def doc_scenario_B : Config ℚ :=
  ⟨[("pilot_selector", .int 1), ("angle_rate_magnitude", .float 15), ("kdalpha", .float 0.02)]⟩

/-- Pilot selector 0 (passive) without `angle_rate_magnitude`. -/
def doc_passive_no_arm : Config ℚ :=
  ⟨[("pilot_selector", .int 0)]⟩

/-- The three time variables. -/
def doc_time : Config ℚ :=
  ⟨[("limit_time", .float 1000), ("time_step_width", .float 0.1),
    ("nb_sub_time_step", .float 10)]⟩

/-- The time variables without `time_step_width`. -/
def doc_time_no_width : Config ℚ :=
  ⟨[("limit_time", .float 1000), ("nb_sub_time_step", .float 10)]⟩

/-- A complete state vector over any scalar type that has the natural numbers. -/
def doc_state_vector (D : Type) [NatCast D] : Config D :=
  ⟨[("x0", .float ((10 : Nat) : D)), ("y0", .float ((20 : Nat) : D)),
    ("z0", .float ((1000 : Nat) : D)), ("V0", .float ((20 : Nat) : D)),
    ("gamma0", .float ((1 : Nat) : D)), ("khi0", .float ((90 : Nat) : D)),
    ("alpha0", .float ((2 : Nat) : D)), ("beta0", .float ((3 : Nat) : D)),
    ("sigma0", .float ((5 : Nat) : D)), ("maximum_angle_magnitude", .float ((30 : Nat) : D))]⟩

/-- A state vector with `x0` and the six angular keys, without `y0`. -/
def doc_state_no_y0 : Config ℚ :=
  ⟨[("x0", .float 10), ("z0", .float 1000), ("V0", .float 20), ("gamma0", .float 1),
    ("khi0", .float 90), ("alpha0", .float 2), ("beta0", .float 3), ("sigma0", .float 5),
    ("maximum_angle_magnitude", .float 30)]⟩

/-- The caller's values of the ten outputs of `read_state` in the examples. -/
def state_seed : beeler_glider_state ℚ :=
  ⟨-1, -2, -3, -4, -5, -6, -7, -8, -9, -10⟩

/-- The two log paths. -/
def doc_log_paths : Config ℚ :=
  ⟨[("st_log_path", .string "data/state.dat"), ("fz_log_path", .string "data/wind.dat")]⟩

/-- A document without log paths. -/
def doc_no_log_paths : Config ℚ :=
  ⟨[("limit_time", .float 1000)]⟩

/-- Environment selector 1 with its three fields. -/
def doc_thermal : Config ℚ :=
  ⟨[("envt_selector", .int 1)] ++ thermal_settings⟩

/-- Environment selector 1 without `noise_stddev`. -/
def doc_thermal_no_noise : Config ℚ :=
  ⟨[("envt_selector", .int 1), ("th_scenario_path", .string "config/thermal_scenario.csv"),
    ("envt_cfg_path", .string "config/fz_config.csv")]⟩

/-- Pilot selector 4 with the nine fields of the optimistic planner and a complete state
vector. -/
def doc_optimistic : Config ℚ :=
  ⟨[("pilot_selector", .int 4), ("angle_rate_magnitude", .float 15), ("kdalpha", .float 0.02)]
    ++ thermal_settings ++ opt_settings ++ state_settings⟩

/-- Pilot selector 4 with the nine fields of the optimistic planner and no state vector. -/
def doc_optimistic_no_state : Config ℚ :=
  ⟨[("pilot_selector", .int 4), ("angle_rate_magnitude", .float 15), ("kdalpha", .float 0.02)]
    ++ thermal_settings ++ opt_settings⟩

/-- The four keys of the state vector that `read_state` reads with `lookupValue`. -/
def position_keys : List String :=
  ["x0", "y0", "z0", "V0"]

/-- The six angular keys of the state vector, which `read_state` tests with `exists` and
then reads with `lookup`. -/
def angle_keys : List String :=
  ["gamma0", "khi0", "alpha0", "beta0", "sigma0", "maximum_angle_magnitude"]

/-- Pilot selector 4 with the nine fields of the optimistic planner and the ten state keys,
where `gamma0` is written as the integer `0`. -/
def doc_optimistic_int_gamma0 : Config ℚ :=
  ⟨[("pilot_selector", .int 4), ("angle_rate_magnitude", .float 15), ("kdalpha", .float 0.02)]
    ++ thermal_settings ++ opt_settings ++
    [("x0", .float 0), ("y0", .float 0), ("z0", .float 1000), ("V0", .float 20),
     ("gamma0", .int 0), ("khi0", .float 90), ("alpha0", .float 2), ("beta0", .float 0),
     ("sigma0", .float 5), ("maximum_angle_magnitude", .float 30)]⟩

/-- Pilot selector 4 with the nine fields of the optimistic planner and the ten state keys,
where `x0` is written as the integer `0`. -/
def doc_optimistic_int_x0 : Config ℚ :=
  ⟨[("pilot_selector", .int 4), ("angle_rate_magnitude", .float 15), ("kdalpha", .float 0.02)]
    ++ thermal_settings ++ opt_settings ++
    [("x0", .int 0), ("y0", .float 0), ("z0", .float 1000), ("V0", .float 20),
     ("gamma0", .float 0), ("khi0", .float 90), ("alpha0", .float 2), ("beta0", .float 0),
     ("sigma0", .float 5), ("maximum_angle_magnitude", .float 30)]⟩

/-! ## Facts about the document lookups -/

section Lemmas
variable {D : Type}

theorem lookupValueDouble_of_absent (cfg : Config D) (key : String)
    (h : cfg.exists_ key = false) : cfg.lookupValueDouble key = none := by
  unfold Config.exists_ at h
  unfold Config.lookupValueDouble
  cases hf : cfg.find key with
  | none => rfl
  | some v => rw [hf] at h; cases h

theorem exists_of_lookupUInt (cfg : Config D) (key : String) (n : Nat)
    (h : cfg.lookupUInt key = .ok n) : cfg.exists_ key = true := by
  unfold Config.lookupUInt Config.lookupAs at h
  unfold Config.exists_
  cases hf : cfg.find key with
  | none => rw [hf] at h; cases h
  | some v => rfl

variable [Mul D]

/-- When a state key is absent `read_state` writes one line and returns, and the six
angular outputs keep the values they had on entry. -/
theorem read_state_of_absent (TO_RAD : D) (cfg : Config D) (s : beeler_glider_state D)
    (h : ∃ k ∈ state_keys, cfg.exists_ k = false) :
    ∃ s', read_state TO_RAD cfg s = ⟨[error_at "read_state"], .returned s'⟩ ∧
      s'.gamma0 = s.gamma0 ∧ s'.khi0 = s.khi0 ∧ s'.alpha0 = s.alpha0 ∧
      s'.beta0 = s.beta0 ∧ s'.sigma0 = s.sigma0 ∧ s'.mam = s.mam := by
  have hcase : cfg.lookupValueDouble "x0" = none ∨ cfg.lookupValueDouble "y0" = none ∨
      cfg.lookupValueDouble "z0" = none ∨ cfg.lookupValueDouble "V0" = none ∨
      read_state_angles_exist cfg = false := by
    obtain ⟨k, hk, habs⟩ := h
    simp only [state_keys, List.mem_cons, List.mem_singleton, List.not_mem_nil, or_false] at hk
    rcases hk with rfl | rfl | rfl | rfl | rfl | rfl | rfl | rfl | rfl | rfl
    · exact Or.inl (lookupValueDouble_of_absent _ _ habs)
    · exact Or.inr (Or.inl (lookupValueDouble_of_absent _ _ habs))
    · exact Or.inr (Or.inr (Or.inl (lookupValueDouble_of_absent _ _ habs)))
    · exact Or.inr (Or.inr (Or.inr (Or.inl (lookupValueDouble_of_absent _ _ habs))))
    all_goals
      right; right; right; right
      simp [read_state_angles_exist, habs]
  unfold read_state
  split
  · exact ⟨_, rfl, rfl, rfl, rfl, rfl, rfl, rfl⟩
  · split
    · exact ⟨_, rfl, rfl, rfl, rfl, rfl, rfl, rfl⟩
    · split
      · exact ⟨_, rfl, rfl, rfl, rfl, rfl, rfl, rfl⟩
      · split
        · exact ⟨_, rfl, rfl, rfl, rfl, rfl, rfl, rfl⟩
        · have hang : read_state_angles_exist cfg = false := by
            rcases hcase with h | h | h | h | h
            all_goals first | exact h | simp_all
          simp only [hang]
          exact ⟨_, rfl, rfl, rfl, rfl, rfl, rfl, rfl⟩

end Lemmas

/-! ## The pilot factory: missing fields and the disabled variant -/

/-- C1 (the code at the failing input): the document `doc_q_learning_no_epsilon` has
pilot selector 2 and no `q_epsilon`, yet `read_pilot` does not return the null handle: after
the failure of `case 2` it runs `case 3` and `case 4`, writes two failure lines and returns
an optimistic pilot. -/
theorem read_pilot_q_learning_no_epsilon :
    doc_q_learning_no_epsilon.lookupUInt "pilot_selector" = .ok 2 ∧
    doc_q_learning_no_epsilon.exists_ "q_epsilon" = false ∧
    read_pilot TO_RAD_example doc_q_learning_no_epsilon =
      ⟨[error_at "read_pilot", error_at "read_pilot"],
       .returned (some (.optimistic_pilot
         (.beeler_glider
           ⟨0, 0, 1000, 20, 0 * TO_RAD_example, 90 * TO_RAD_example, 2 * TO_RAD_example,
            0 * TO_RAD_example, 5 * TO_RAD_example, 30 * TO_RAD_example⟩ {})
         "config/thermal_scenario.csv" "config/fz_config.csv" 0.1
         (15 * TO_RAD_example) 0.02 0.1 0.1 0.9 1000))⟩ :=
  ⟨rfl, rfl, rfl⟩

/-- C2 (the code at the failing input): the document `doc_uct_complete` has pilot selector 3
and all twelve fields of the UCT schema, yet `read_pilot` does not return the null handle:
after the failure line of `case 3` it runs `case 4` and returns an optimistic pilot. -/
theorem read_pilot_uct_complete :
    doc_uct_complete.lookupUInt "pilot_selector" = .ok 3 ∧
    read_pilot_case3_fields doc_uct_complete = some () ∧
    read_pilot TO_RAD_example doc_uct_complete =
      ⟨[error_at "read_pilot"],
       .returned (some (.optimistic_pilot
         (.beeler_glider
           ⟨0, 0, 1000, 20, 0 * TO_RAD_example, 90 * TO_RAD_example, 2 * TO_RAD_example,
            0 * TO_RAD_example, 5 * TO_RAD_example, 30 * TO_RAD_example⟩ {})
         "config/thermal_scenario.csv" "config/fz_config.csv" 0.1
         (15 * TO_RAD_example) 0.02 0.1 0.1 0.9 1000))⟩ :=
  ⟨rfl, rfl, rfl⟩

/-! ## The environment factory: a missing wind component -/

/-- C3 (the code at the failing input): the document `doc_flat_zone_no_wy` has environment
selector 0 and no `wy`, yet `read_environment` does not return the null handle: after the
failure line of `case 0` it runs `case 1` and returns a thermal soaring zone. -/
theorem read_environment_flat_zone_no_wy :
    doc_flat_zone_no_wy.lookupValueUInt "envt_selector" = some 0 ∧
    doc_flat_zone_no_wy.exists_ "wy" = false ∧
    read_environment doc_flat_zone_no_wy =
      ⟨[error_at "read_environment"],
       .returned (some (.flat_thermal_soaring_zone
         "config/thermal_scenario.csv" "config/fz_config.csv" 0.1))⟩ :=
  ⟨rfl, rfl, rfl⟩

/-! ## The aircraft factory -/

/-- C4 (counterexample): the document `doc_glider_no_mam` has aircraft selector 0 and no
`maximum_angle_magnitude`, and `read_aircraft` returns a glider, not the null handle; its
six angles are the defaults 0 although five angular keys are present. -/
theorem read_aircraft_glider_no_mam :
    doc_glider_no_mam.lookupUInt "aircraft_selector" = .ok 0 ∧
    doc_glider_no_mam.exists_ "maximum_angle_magnitude" = false ∧
    read_aircraft TO_RAD_example doc_glider_no_mam =
      ⟨[error_at "read_state"],
       .returned (some (.beeler_glider ⟨0, 0, 1000, 20, 0, 0, 0, 0, 0, 0⟩ {}))⟩ ∧
    (read_aircraft TO_RAD_example doc_glider_no_mam).res ≠ .returned none :=
  ⟨rfl, rfl, rfl, by decide⟩

section Aircraft
variable {D : Type} [Mul D] [Zero D]

/-- C4 (amended): for every document whose aircraft selector is 0 and in which at least one
of the ten state-vector keys is absent, `read_aircraft` writes exactly one failure line, the
one of `read_state`, and returns a non-null glider: the one built from the state `read_state`
leaves in the locals initialised to 0, whose six angles are 0. -/
theorem read_aircraft_state_key_absent (TO_RAD : D) (cfg : Config D)
    (hsel : cfg.lookupUInt "aircraft_selector" = .ok 0)
    (habs : ∃ k ∈ state_keys, cfg.exists_ k = false) :
    ∃ s : beeler_glider_state D,
      read_state TO_RAD cfg state_defaults = ⟨[error_at "read_state"], .returned s⟩ ∧
      read_aircraft TO_RAD cfg =
        ⟨[error_at "read_state"], .returned (some (.beeler_glider s {}))⟩ ∧
      s.gamma0 = 0 ∧ s.khi0 = 0 ∧ s.alpha0 = 0 ∧ s.beta0 = 0 ∧ s.sigma0 = 0 ∧ s.mam = 0 := by
  obtain ⟨s, hs, h1, h2, h3, h4, h5, h6⟩ := read_state_of_absent TO_RAD cfg state_defaults habs
  refine ⟨s, hs, ?_, h1, h2, h3, h4, h5, h6⟩
  unfold read_aircraft
  rw [if_pos (exists_of_lookupUInt cfg _ _ hsel), hsel]
  simp only [hs]

end Aircraft

/-- C4 (witness): the amended claim at `doc_glider_no_mam`. -/
theorem read_aircraft_state_key_absent_witness :
    ∃ s : beeler_glider_state ℚ,
      read_state TO_RAD_example doc_glider_no_mam state_defaults =
        ⟨[error_at "read_state"], .returned s⟩ ∧
      read_aircraft TO_RAD_example doc_glider_no_mam =
        ⟨[error_at "read_state"], .returned (some (.beeler_glider s {}))⟩ ∧
      s.gamma0 = 0 ∧ s.khi0 = 0 ∧ s.alpha0 = 0 ∧ s.beta0 = 0 ∧ s.sigma0 = 0 ∧ s.mam = 0 :=
  read_aircraft_state_key_absent TO_RAD_example doc_glider_no_mam rfl
    ⟨"maximum_angle_magnitude", by decide, rfl⟩

/-! ## Unsupported selectors -/

section Selectors
variable {D : Type} [Mul D] [Zero D]

/-- C5: selector closure.  When the aircraft selector reads `n ≠ 0`, `read_aircraft` writes
its failure line and returns the null handle, a result in which no other key of the
document takes part; when the environment selector reads `n ∉ {0, 1}`, `read_environment`
returns the null handle; when the pilot selector reads `n ∉ {0, ..., 4}`, `read_pilot`
returns the null handle. -/
theorem selector_closure (TO_RAD : D) (cfg : Config D) (n : Nat) :
    (cfg.lookupUInt "aircraft_selector" = .ok n → n ≠ 0 →
      read_aircraft TO_RAD cfg = ⟨[error_at "read_aircraft"], .returned none⟩) ∧
    (cfg.lookupValueUInt "envt_selector" = some n → n ≠ 0 → n ≠ 1 →
      read_environment cfg = ⟨[], .returned none⟩) ∧
    (cfg.lookupUInt "pilot_selector" = .ok n → 4 < n →
      read_pilot TO_RAD cfg = ⟨[], .returned none⟩) := by
  refine ⟨?_, ?_, ?_⟩
  · intro h hn
    unfold read_aircraft
    rw [if_pos (exists_of_lookupUInt cfg _ _ h), h]
    cases n with
    | zero => exact absurd rfl hn
    | succ m => rfl
  · intro h h0 h1
    unfold read_environment
    rw [h]
    obtain ⟨m, rfl⟩ : ∃ m, n = m + 2 := ⟨n - 2, by omega⟩
    rfl
  · intro h h4
    unfold read_pilot
    rw [if_pos (exists_of_lookupUInt cfg _ _ h), h]
    obtain ⟨m, rfl⟩ : ∃ m, n = m + 5 := ⟨n - 5, by omega⟩
    rfl

end Selectors

/-- C5 (witness): Scenario D, selector 7 in a document with a complete state vector. -/
theorem selector_closure_witness :
    read_aircraft TO_RAD_example doc_selector_7 = ⟨[error_at "read_aircraft"], .returned none⟩ ∧
    read_environment doc_selector_7 = ⟨[], .returned none⟩ ∧
    read_pilot TO_RAD_example doc_selector_7 = ⟨[], .returned none⟩ :=
  ⟨(selector_closure TO_RAD_example doc_selector_7 7).1 rfl (by decide),
   (selector_closure TO_RAD_example doc_selector_7 7).2.1 rfl (by decide) (by decide),
   (selector_closure TO_RAD_example doc_selector_7 7).2.2 rfl (by decide)⟩

/-! ## The stepper factory -/

section Stepper
variable {D : Type}

/-- C6: `read_stepper` returns an Euler integrator exactly when the selector reads 0, and
then it is built with `sub_dt`; it returns a Runge-Kutta integrator exactly when the selector
reads 1, and then it is built with `sub_dt`; it returns the null handle exactly when the
selector is absent or reads a value outside `{0, 1}`; and when the selector is absent it
writes exactly one line, the failure line of `read_stepper`. -/
theorem read_stepper_spec (cfg : Config D) (sub_dt : D) :
    (∀ d, (read_stepper cfg sub_dt).res = .returned (some (.euler_integrator d)) ↔
      cfg.lookupUInt "stepper_selector" = .ok 0 ∧ d = sub_dt) ∧
    (∀ d, (read_stepper cfg sub_dt).res = .returned (some (.rk4_integrator d)) ↔
      cfg.lookupUInt "stepper_selector" = .ok 1 ∧ d = sub_dt) ∧
    ((read_stepper cfg sub_dt).res = .returned none ↔
      cfg.exists_ "stepper_selector" = false ∨
      ∃ n, cfg.lookupUInt "stepper_selector" = .ok n ∧ n ≠ 0 ∧ n ≠ 1) ∧
    (cfg.exists_ "stepper_selector" = false →
      (read_stepper cfg sub_dt).out = [error_at "read_stepper"]) := by
  unfold read_stepper
  cases hex : cfg.exists_ "stepper_selector" with
  | false =>
    have hno : ∀ n, cfg.lookupUInt "stepper_selector" ≠ .ok n := by
      intro n hn
      rw [exists_of_lookupUInt cfg _ _ hn] at hex
      cases hex
    simp [hno]
  | true =>
    cases hl : cfg.lookupUInt "stepper_selector" with
    | error e => simp
    | ok n =>
      match n with
      | 0 => simp [eq_comm]
      | 1 => simp [eq_comm]
      | m + 2 => simp

end Stepper

/-- C6 (witness): selector 1 gives the Runge-Kutta integrator built with `sub_dt = 0.01`,
and selector 7 the null handle. -/
theorem read_stepper_spec_witness :
    (read_stepper doc_rk4 0.01).res = .returned (some (.rk4_integrator 0.01)) ∧
    (read_stepper doc_selector_7 0.01).res = .returned none :=
  ⟨((read_stepper_spec doc_rk4 0.01).2.1 0.01).2 ⟨rfl, rfl⟩,
   (read_stepper_spec doc_selector_7 0.01).2.2.1.2 (Or.inr ⟨7, rfl, by decide, by decide⟩)⟩

/-! ## Successful constructions -/

section Success
variable {D : Type}

/-- C7: when the environment selector reads 0 and `wx`, `wy` read as the numbers `wx`, `wy`,
`read_environment` returns the flat zone built by `flat_zone(wx, wy)` and writes nothing. -/
theorem read_environment_flat_zone (cfg : Config D) (wx wy : D)
    (hsel : cfg.lookupValueUInt "envt_selector" = some 0)
    (hwx : cfg.lookupValueDouble "wx" = some wx)
    (hwy : cfg.lookupValueDouble "wy" = some wy) :
    read_environment cfg = ⟨[], .returned (some (.flat_zone wx wy))⟩ := by
  simp [read_environment, read_environment_case0, read_environment_case0_fields, hsel, hwx, hwy]

variable [Mul D] [Zero D]

/-- C8: when the pilot selector reads 1 and `angle_rate_magnitude`, `kdalpha` read as the
numbers `a`, `k`, `read_pilot` returns the pilot built by `heuristic_pilot(a * TO_RAD, k)`
and writes nothing. -/
theorem read_pilot_heuristic (TO_RAD : D) (cfg : Config D) (a k : D)
    (hsel : cfg.lookupUInt "pilot_selector" = .ok 1)
    (ha : cfg.lookupValueDouble "angle_rate_magnitude" = some a)
    (hk : cfg.lookupValueDouble "kdalpha" = some k) :
    read_pilot TO_RAD cfg = ⟨[], .returned (some (.heuristic_pilot (a * TO_RAD) k))⟩ := by
  simp [read_pilot, read_pilot_case1, read_pilot_case1_fields,
    exists_of_lookupUInt cfg _ _ hsel, hsel, ha, hk]

end Success

/-- C7 (witness): Scenario A, `wx = 3.0` and `wy = -1.5`. -/
theorem read_environment_flat_zone_witness :
    read_environment doc_scenario_A = ⟨[], .returned (some (.flat_zone 3.0 (-1.5)))⟩ :=
  read_environment_flat_zone doc_scenario_A 3.0 (-1.5) rfl rfl rfl

/-- C8 (witness): Scenario B, `angle_rate_magnitude = 15` and `kdalpha = 0.02`. -/
theorem read_pilot_heuristic_witness :
    read_pilot TO_RAD_example doc_scenario_B =
      ⟨[], .returned (some (.heuristic_pilot (15 * TO_RAD_example) 0.02))⟩ :=
  read_pilot_heuristic TO_RAD_example doc_scenario_B 15 0.02 rfl rfl rfl

/-! ## Failure reports -/

/-- C9 (the code at the failing input): in `doc_selector_7` the stepper, environment and
pilot selectors are present and unsupported; `read_stepper`, `read_environment` and
`read_pilot` return the null handle and write nothing, where `read_aircraft` writes its
failure line. -/
theorem null_handle_without_report :
    read_stepper doc_selector_7 0.01 = ⟨[], .returned none⟩ ∧
    read_environment doc_selector_7 = ⟨[], .returned none⟩ ∧
    read_pilot TO_RAD_example doc_selector_7 = ⟨[], .returned none⟩ ∧
    read_aircraft TO_RAD_example doc_selector_7 =
      ⟨[error_at "read_aircraft"], .returned none⟩ :=
  ⟨rfl, rfl, rfl, rfl⟩

/-- C10 (the code at the failing input): the document `doc_passive_no_arm` has pilot
selector 0 and no `angle_rate_magnitude`; `read_pilot` writes five failure lines, one per
`case` block from 0 to 4, and returns the null handle. -/
theorem read_pilot_passive_no_arm :
    doc_passive_no_arm.lookupUInt "pilot_selector" = .ok 0 ∧
    doc_passive_no_arm.exists_ "angle_rate_magnitude" = false ∧
    read_pilot TO_RAD_example doc_passive_no_arm =
      ⟨[error_at "read_pilot", error_at "read_pilot", error_at "read_pilot",
        error_at "read_pilot", error_at "read_pilot"], .returned none⟩ :=
  ⟨rfl, rfl, rfl⟩

/-! ## More facts about the document lookups -/

section MoreLemmas
variable {D : Type}

theorem lookupValueString_of_absent (cfg : Config D) (key : String)
    (h : cfg.exists_ key = false) : cfg.lookupValueString key = none := by
  unfold Config.exists_ at h
  unfold Config.lookupValueString
  cases hf : cfg.find key with
  | none => rfl
  | some v => rw [hf] at h; cases h

/-- A key that `lookupValue` reads as a double exists, and `lookup` converts it to the
same double without throwing. -/
theorem lookupDouble_of_lookupValueDouble (cfg : Config D) (key : String) (d : D)
    (h : cfg.lookupValueDouble key = some d) :
    cfg.exists_ key = true ∧ cfg.lookupDouble key = .ok d := by
  unfold Config.lookupValueDouble at h
  unfold Config.exists_ Config.lookupDouble Config.lookupAs
  cases hf : cfg.find key with
  | none => rw [hf] at h; cases h
  | some v =>
    rw [hf] at h
    have hv : Setting.toDouble v = some d := h
    simp [hv]

variable [Mul D]

/-- When the ten state keys are readable `read_state` writes nothing and returns the four
first values unchanged and the six angular values multiplied by `TO_RAD`. -/
theorem read_state_of_readable (TO_RAD : D) (cfg : Config D) (s : beeler_glider_state D)
    (x y z V g k a b sg m : D)
    (hx : cfg.lookupValueDouble "x0" = some x) (hy : cfg.lookupValueDouble "y0" = some y)
    (hz : cfg.lookupValueDouble "z0" = some z) (hV : cfg.lookupValueDouble "V0" = some V)
    (hg : cfg.lookupValueDouble "gamma0" = some g)
    (hk : cfg.lookupValueDouble "khi0" = some k)
    (ha : cfg.lookupValueDouble "alpha0" = some a)
    (hb : cfg.lookupValueDouble "beta0" = some b)
    (hsg : cfg.lookupValueDouble "sigma0" = some sg)
    (hm : cfg.lookupValueDouble "maximum_angle_magnitude" = some m) :
    read_state TO_RAD cfg s =
      ⟨[], .returned ⟨x, y, z, V, g * TO_RAD, k * TO_RAD, a * TO_RAD, b * TO_RAD,
        sg * TO_RAD, m * TO_RAD⟩⟩ := by
  obtain ⟨eg, lg⟩ := lookupDouble_of_lookupValueDouble cfg _ _ hg
  obtain ⟨ek, lk⟩ := lookupDouble_of_lookupValueDouble cfg _ _ hk
  obtain ⟨ea, la⟩ := lookupDouble_of_lookupValueDouble cfg _ _ ha
  obtain ⟨eb, lb⟩ := lookupDouble_of_lookupValueDouble cfg _ _ hb
  obtain ⟨esg, lsg⟩ := lookupDouble_of_lookupValueDouble cfg _ _ hsg
  obtain ⟨em, lm⟩ := lookupDouble_of_lookupValueDouble cfg _ _ hm
  simp [read_state, read_state_angles_exist, read_state_angles, hx, hy, hz, hV,
    eg, ek, ea, eb, esg, em, lg, lk, la, lb, lsg, lm, bind, Except.bind, pure, Except.pure]

end MoreLemmas

/-! ## The time variables -/

section Time
variable {D : Type}

/-- C11: when `limit_time`, `time_step_width` and `nb_sub_time_step` are readable,
`read_time_variables` leaves the three document values in `t_lim`, `Dt`, `nb_dt` and writes
nothing; when one of them is not readable it writes exactly one line, the failure line of
`read_time_variables`. -/
theorem read_time_variables_all_or_nothing (cfg : Config D) (v : time_variables D) :
    (∀ t d n, cfg.lookupValueDouble "limit_time" = some t →
      cfg.lookupValueDouble "time_step_width" = some d →
      cfg.lookupValueDouble "nb_sub_time_step" = some n →
      read_time_variables cfg v = ⟨[], .returned ⟨t, d, n⟩⟩) ∧
    (cfg.lookupValueDouble "limit_time" = none ∨
      cfg.lookupValueDouble "time_step_width" = none ∨
      cfg.lookupValueDouble "nb_sub_time_step" = none →
      (read_time_variables cfg v).out = [error_at "read_time_variables"]) := by
  constructor
  · intro t d n ht hd hn
    simp [read_time_variables, ht, hd, hn]
  · intro h
    unfold read_time_variables
    split
    · rfl
    · split
      · rfl
      · split
        · rfl
        · simp_all

/-- C12 (amended): when one of the three time keys is absent, `read_time_variables` writes
its failure line and `nb_dt` keeps the caller's value; every output from the first
unreadable key onward keeps the caller's value, and the outputs before it hold the document
values. -/
theorem read_time_variables_key_absent (cfg : Config D) (v : time_variables D)
    (habs : ∃ k ∈ time_keys, cfg.exists_ k = false) :
    ∃ v', read_time_variables cfg v = ⟨[error_at "read_time_variables"], .returned v'⟩ ∧
      v'.nb_dt = v.nb_dt ∧
      (cfg.lookupValueDouble "limit_time" = none → v' = v) ∧
      (∀ t, cfg.lookupValueDouble "limit_time" = some t →
        cfg.lookupValueDouble "time_step_width" = none → v' = { v with t_lim := t }) ∧
      (∀ t d, cfg.lookupValueDouble "limit_time" = some t →
        cfg.lookupValueDouble "time_step_width" = some d →
        v' = { v with t_lim := t, Dt := d }) := by
  have hcase : cfg.lookupValueDouble "limit_time" = none ∨
      cfg.lookupValueDouble "time_step_width" = none ∨
      cfg.lookupValueDouble "nb_sub_time_step" = none := by
    obtain ⟨k, hk, habs⟩ := habs
    simp only [time_keys, List.mem_cons, List.mem_singleton, List.not_mem_nil, or_false] at hk
    rcases hk with rfl | rfl | rfl
    · exact Or.inl (lookupValueDouble_of_absent _ _ habs)
    · exact Or.inr (Or.inl (lookupValueDouble_of_absent _ _ habs))
    · exact Or.inr (Or.inr (lookupValueDouble_of_absent _ _ habs))
  unfold read_time_variables
  cases h1 : cfg.lookupValueDouble "limit_time" with
  | none =>
    refine ⟨v, rfl, rfl, fun _ => rfl, ?_, ?_⟩
    · intro t ht
      cases ht
    · intro t d ht
      cases ht
  | some t =>
    cases h2 : cfg.lookupValueDouble "time_step_width" with
    | none =>
      refine ⟨{ v with t_lim := t }, rfl, rfl, ?_, ?_, ?_⟩
      · intro h
        cases h
      · intro t' ht _
        cases ht
        rfl
      · intro t' d ht hd
        cases hd
    | some d =>
      have h3 : cfg.lookupValueDouble "nb_sub_time_step" = none := by
        rcases hcase with h | h | h
        · rw [h1] at h; cases h
        · rw [h2] at h; cases h
        · exact h
      refine ⟨{ v with t_lim := t, Dt := d }, ?_, rfl, ?_, ?_, ?_⟩
      · simp [h3]
      · intro h
        cases h
      · intro t' ht hd
        cases hd
      · intro t' d' ht hd
        cases ht
        cases hd
        rfl

end Time

/-- C11 (witness): the three values of `doc_time` are read, and `doc_time_no_width` gives one
failure line. -/
theorem read_time_variables_all_or_nothing_witness :
    read_time_variables doc_time ⟨0, 0, 0⟩ = ⟨[], .returned ⟨1000, 0.1, 10⟩⟩ ∧
    (read_time_variables doc_time_no_width ⟨0, 0, 0⟩).out = [error_at "read_time_variables"] :=
  ⟨(read_time_variables_all_or_nothing doc_time ⟨0, 0, 0⟩).1 1000 0.1 10 rfl rfl rfl,
   (read_time_variables_all_or_nothing doc_time_no_width ⟨0, 0, 0⟩).2 (Or.inr (Or.inl rfl))⟩

/-- C12 (counterexample): `doc_time_no_width` has no `time_step_width`, the read fails, and
`t_lim`, which the caller passed as 0, is 1000 on exit. -/
theorem read_time_variables_no_width :
    doc_time_no_width.exists_ "time_step_width" = false ∧
    read_time_variables doc_time_no_width ⟨0, 0, 0⟩ =
      ⟨[error_at "read_time_variables"], .returned ⟨1000, 0, 0⟩⟩ ∧
    (read_time_variables doc_time_no_width ⟨0, 0, 0⟩).res ≠ .returned ⟨0, 0, 0⟩ := by
  refine ⟨rfl, rfl, ?_⟩
  have h : read_time_variables doc_time_no_width ⟨0, 0, 0⟩ =
      ⟨[error_at "read_time_variables"], .returned ⟨1000, 0, 0⟩⟩ := rfl
  rw [h]
  simp

/-- C12 (witness): the amended claim at `doc_time_no_width`. -/
theorem read_time_variables_key_absent_witness :
    ∃ v', read_time_variables doc_time_no_width ⟨0, 0, 0⟩ =
        ⟨[error_at "read_time_variables"], .returned v'⟩ ∧
      v'.nb_dt = 0 ∧ v'.t_lim = 1000 := by
  obtain ⟨v', h, hn, _, h2, _⟩ :=
    read_time_variables_key_absent doc_time_no_width ⟨0, 0, 0⟩ ⟨"time_step_width", by decide, rfl⟩
  exact ⟨v', h, hn, by rw [h2 1000 rfl rfl]⟩

/-! ## The state vector -/

/-- C13: over the real numbers, with `TO_RAD = π / 180`: when the ten state keys are
readable, `read_state` writes nothing, leaves the document values of `x0`, `y0`, `z0`, `V0`
unchanged in the first four outputs and each angular document value multiplied by `π / 180`
in the six angular outputs; each angular output multiplied by `180 / π` is the document
value again. -/
theorem read_state_degrees_to_radians (cfg : Config ℝ) (s : beeler_glider_state ℝ)
    (x y z V g k a b sg m : ℝ)
    (hx : cfg.lookupValueDouble "x0" = some x) (hy : cfg.lookupValueDouble "y0" = some y)
    (hz : cfg.lookupValueDouble "z0" = some z) (hV : cfg.lookupValueDouble "V0" = some V)
    (hg : cfg.lookupValueDouble "gamma0" = some g)
    (hk : cfg.lookupValueDouble "khi0" = some k)
    (ha : cfg.lookupValueDouble "alpha0" = some a)
    (hb : cfg.lookupValueDouble "beta0" = some b)
    (hsg : cfg.lookupValueDouble "sigma0" = some sg)
    (hm : cfg.lookupValueDouble "maximum_angle_magnitude" = some m) :
    ∃ s', read_state (Real.pi / 180) cfg s = ⟨[], .returned s'⟩ ∧
      s'.x0 = x ∧ s'.y0 = y ∧ s'.z0 = z ∧ s'.V0 = V ∧
      s'.gamma0 = g * (Real.pi / 180) ∧ s'.khi0 = k * (Real.pi / 180) ∧
      s'.alpha0 = a * (Real.pi / 180) ∧ s'.beta0 = b * (Real.pi / 180) ∧
      s'.sigma0 = sg * (Real.pi / 180) ∧ s'.mam = m * (Real.pi / 180) ∧
      s'.gamma0 * (180 / Real.pi) = g ∧ s'.khi0 * (180 / Real.pi) = k ∧
      s'.alpha0 * (180 / Real.pi) = a ∧ s'.beta0 * (180 / Real.pi) = b ∧
      s'.sigma0 * (180 / Real.pi) = sg ∧ s'.mam * (180 / Real.pi) = m := by
  have back : ∀ t : ℝ, t * (Real.pi / 180) * (180 / Real.pi) = t := by
    intro t
    have hpi : Real.pi ≠ 0 := Real.pi_ne_zero
    field_simp
  exact ⟨_, read_state_of_readable (Real.pi / 180) cfg s x y z V g k a b sg m
    hx hy hz hV hg hk ha hb hsg hm, rfl, rfl, rfl, rfl, rfl, rfl, rfl, rfl, rfl, rfl,
    back g, back k, back a, back b, back sg, back m⟩

/-- C13 (witness): the state vector of `doc_state_vector`, over the real numbers. -/
theorem read_state_degrees_to_radians_witness :
    ∃ s', read_state (Real.pi / 180) (doc_state_vector ℝ) state_defaults = ⟨[], .returned s'⟩ ∧
      s'.x0 = (10 : Nat) ∧ s'.khi0 = (90 : Nat) * (Real.pi / 180) ∧
      s'.khi0 * (180 / Real.pi) = (90 : Nat) := by
  obtain ⟨s', h, hx0, _, _, _, _, hk, _, _, _, _, _, hk', _⟩ :=
    read_state_degrees_to_radians (doc_state_vector ℝ) state_defaults
      (10 : Nat) (20 : Nat) (1000 : Nat) (20 : Nat) (1 : Nat) (90 : Nat) (2 : Nat) (3 : Nat)
      (5 : Nat) (30 : Nat) rfl rfl rfl rfl rfl rfl rfl rfl rfl rfl
  exact ⟨s', h, hx0, hk, hk'⟩

section StateFrame
variable {D : Type} [Mul D]

/-- C14: when at least one of the ten state keys is absent, `read_state` writes exactly one
line, the failure line of `read_state`, and the six angular outputs keep the values the
caller passed in, whether or not their own keys are present. -/
theorem read_state_key_absent (TO_RAD : D) (cfg : Config D) (s : beeler_glider_state D)
    (habs : ∃ k ∈ state_keys, cfg.exists_ k = false) :
    (read_state TO_RAD cfg s).out = [error_at "read_state"] ∧
    ∃ s', (read_state TO_RAD cfg s).res = .returned s' ∧
      s'.gamma0 = s.gamma0 ∧ s'.khi0 = s.khi0 ∧ s'.alpha0 = s.alpha0 ∧
      s'.beta0 = s.beta0 ∧ s'.sigma0 = s.sigma0 ∧ s'.mam = s.mam := by
  obtain ⟨s', h, hrest⟩ := read_state_of_absent TO_RAD cfg s habs
  rw [h]
  exact ⟨rfl, s', rfl, hrest⟩

end StateFrame

/-- C14 (witness): `doc_state_no_y0` lacks `y0` and holds the six angular keys; the angular
outputs keep the caller's values `-5, ..., -10`. -/
theorem read_state_key_absent_witness :
    doc_state_no_y0.exists_ "khi0" = true ∧
    (read_state TO_RAD_example doc_state_no_y0 state_seed).out = [error_at "read_state"] ∧
    ∃ s', (read_state TO_RAD_example doc_state_no_y0 state_seed).res = .returned s' ∧
      s'.gamma0 = -5 ∧ s'.khi0 = -6 ∧ s'.alpha0 = -7 ∧
      s'.beta0 = -8 ∧ s'.sigma0 = -9 ∧ s'.mam = -10 :=
  ⟨rfl, read_state_key_absent TO_RAD_example doc_state_no_y0 state_seed ⟨"y0", by decide, rfl⟩⟩

/-! ## The log paths -/

/-- C15 (the code at the failing input): `doc_no_log_paths` has neither `st_log_path` nor
`fz_log_path`; each reader writes its failure line and then, at `return nullptr;`, does not
return the empty string: the construction of the result from a null pointer throws.  In
`doc_log_paths`, where the keys are present, each reader returns its string and writes
nothing. -/
theorem read_log_path_absent :
    doc_no_log_paths.exists_ "st_log_path" = false ∧
    read_st_log_path doc_no_log_paths =
      ⟨[error_at "read_st_log_path"], .threw .logic_error⟩ ∧
    (read_st_log_path doc_no_log_paths).res ≠ .returned "" ∧
    doc_no_log_paths.exists_ "fz_log_path" = false ∧
    read_fz_log_path doc_no_log_paths =
      ⟨[error_at "read_fz_log_path"], .threw .logic_error⟩ ∧
    (read_fz_log_path doc_no_log_paths).res ≠ .returned "" ∧
    read_st_log_path doc_log_paths = ⟨[], .returned "data/state.dat"⟩ ∧
    read_fz_log_path doc_log_paths = ⟨[], .returned "data/wind.dat"⟩ :=
  ⟨rfl, rfl, by decide, rfl, rfl, by decide, rfl, rfl⟩

/-! ## The thermal soaring zone -/

section Thermal
variable {D : Type}

/-- C16: when the environment selector reads 1: if `th_scenario_path`, `envt_cfg_path` and
`noise_stddev` are readable, `read_environment` returns the zone built by
`flat_thermal_soaring_zone` with these three document values and writes nothing; if one of
them is not readable (absent, or of another type), it returns the null handle and writes
exactly one line, the failure line of `read_environment`. -/
theorem read_environment_thermal (cfg : Config D)
    (hsel : cfg.lookupValueUInt "envt_selector" = some 1) :
    (∀ sc ec ns, cfg.lookupValueString "th_scenario_path" = some sc →
      cfg.lookupValueString "envt_cfg_path" = some ec →
      cfg.lookupValueDouble "noise_stddev" = some ns →
      read_environment cfg =
        ⟨[], .returned (some (.flat_thermal_soaring_zone sc ec ns))⟩) ∧
    (cfg.lookupValueString "th_scenario_path" = none ∨
      cfg.lookupValueString "envt_cfg_path" = none ∨
      cfg.lookupValueDouble "noise_stddev" = none →
      read_environment cfg = ⟨[error_at "read_environment"], .returned none⟩) := by
  constructor
  · intro sc ec ns h1 h2 h3
    simp [read_environment, read_environment_case1, read_environment_case1_fields,
      hsel, h1, h2, h3]
  · intro h
    have hnone : read_environment_case1_fields cfg = none := by
      unfold read_environment_case1_fields
      rcases h with h | h | h
      · simp [h]
      · cases h1 : cfg.lookupValueString "th_scenario_path" <;> simp [h]
      · cases h1 : cfg.lookupValueString "th_scenario_path" <;>
          cases h2 : cfg.lookupValueString "envt_cfg_path" <;> simp [h]
    simp [read_environment, read_environment_case1, hsel, hnone]

end Thermal

/-- C16 (witness): `doc_thermal` gives the zone built with its three values, and
`doc_thermal_no_noise`, where `noise_stddev` is absent, the null handle and one line. -/
theorem read_environment_thermal_witness :
    read_environment doc_thermal =
      ⟨[], .returned (some (.flat_thermal_soaring_zone
        "config/thermal_scenario.csv" "config/fz_config.csv" 0.1))⟩ ∧
    doc_thermal_no_noise.exists_ "noise_stddev" = false ∧
    read_environment doc_thermal_no_noise =
      ⟨[error_at "read_environment"], .returned none⟩ :=
  ⟨(read_environment_thermal doc_thermal rfl).1 _ _ _ rfl rfl rfl, rfl,
   (read_environment_thermal doc_thermal_no_noise rfl).2 (Or.inr (Or.inr rfl))⟩

/-! ## Facts about the blocks of `read_pilot` -/

section PilotLemmas
variable {D : Type}

theorem read_pilot_case4_fields_some (cfg : Config D) (f : optimistic_fields D)
    (h : read_pilot_case4_fields cfg = some f) :
    cfg.lookupValueString "th_scenario_path" = some f.sc_path ∧
    cfg.lookupValueString "envt_cfg_path" = some f.envt_cfg_path ∧
    cfg.lookupValueDouble "noise_stddev" = some f.noise_stddev ∧
    cfg.lookupValueDouble "angle_rate_magnitude" = some f.arm ∧
    cfg.lookupValueDouble "kdalpha" = some f.kd ∧
    cfg.lookupValueDouble "opt_time_step_width" = some f.dt ∧
    cfg.lookupValueDouble "opt_sub_time_step_width" = some f.sdt ∧
    cfg.lookupValueDouble "opt_discount_factor" = some f.df ∧
    cfg.lookupValueUInt "opt_budget" = some f.bd := by
  simp only [read_pilot_case4_fields, bind, Option.bind_eq_some, pure, Option.some.injEq] at h
  obtain ⟨sc, hsc, ec, hec, ns, hns, arm, harm, kd, hkd, dt, hdt, sdt, hsdt, df, hdf,
    bd, hbd, rfl⟩ := h
  exact ⟨hsc, hec, hns, harm, hkd, hdt, hsdt, hdf, hbd⟩

theorem read_pilot_case2_fields_some (cfg : Config D) (a k e l d : D) :
    read_pilot_case2_fields cfg = some (a, k, e, l, d) ↔
      cfg.lookupValueDouble "angle_rate_magnitude" = some a ∧
      cfg.lookupValueDouble "kdalpha" = some k ∧
      cfg.lookupValueDouble "q_epsilon" = some e ∧
      cfg.lookupValueDouble "q_learning_rate" = some l ∧
      cfg.lookupValueDouble "q_discount_factor" = some d := by
  constructor
  · intro h
    simp only [read_pilot_case2_fields, bind, Option.bind_eq_some, pure, Option.some.injEq,
      Prod.mk.injEq] at h
    obtain ⟨arm, harm, kd, hkd, ep, hep, lr, hlr, df, hdf, rfl, rfl, rfl, rfl, rfl⟩ := h
    exact ⟨harm, hkd, hep, hlr, hdf⟩
  · rintro ⟨h1, h2, h3, h4, h5⟩
    simp [read_pilot_case2_fields, h1, h2, h3, h4, h5]

theorem read_pilot_case1_fields_some (cfg : Config D) (a k : D) :
    read_pilot_case1_fields cfg = some (a, k) ↔
      cfg.lookupValueDouble "angle_rate_magnitude" = some a ∧
      cfg.lookupValueDouble "kdalpha" = some k := by
  constructor
  · intro h
    simp only [read_pilot_case1_fields, bind, Option.bind_eq_some, pure, Option.some.injEq,
      Prod.mk.injEq] at h
    obtain ⟨a1, h1, a2, h2, rfl, rfl⟩ := h
    exact ⟨h1, h2⟩
  · rintro ⟨h1, h2⟩
    simp [read_pilot_case1_fields, h1, h2]

/-- Without a readable `angle_rate_magnitude` or without a readable `kdalpha`, the
conditions of `case 1`, `case 2` and `case 4` fail. -/
theorem read_pilot_fields_none (cfg : Config D)
    (h : cfg.lookupValueDouble "angle_rate_magnitude" = none ∨
      cfg.lookupValueDouble "kdalpha" = none) :
    read_pilot_case1_fields cfg = none ∧ read_pilot_case2_fields cfg = none ∧
    read_pilot_case4_fields cfg = none := by
  refine ⟨?_, ?_, ?_⟩
  · cases hf : read_pilot_case1_fields cfg with
    | none => rfl
    | some f =>
      obtain ⟨a, k⟩ := f
      obtain ⟨h1, h2⟩ := (read_pilot_case1_fields_some cfg a k).1 hf
      rcases h with h | h
      · rw [h1] at h; cases h
      · rw [h2] at h; cases h
  · cases hf : read_pilot_case2_fields cfg with
    | none => rfl
    | some f =>
      obtain ⟨a, k, e, l, d⟩ := f
      obtain ⟨h1, h2, _⟩ := (read_pilot_case2_fields_some cfg a k e l d).1 hf
      rcases h with h | h
      · rw [h1] at h; cases h
      · rw [h2] at h; cases h
  · cases hf : read_pilot_case4_fields cfg with
    | none => rfl
    | some f =>
      obtain ⟨_, _, _, h1, h2, _⟩ := read_pilot_case4_fields_some cfg f hf
      rcases h with h | h
      · rw [h1] at h; cases h
      · rw [h2] at h; cases h

variable [Mul D] [Zero D]

/-- Both branches of `case 3` write one failure line and continue into `case 4`. -/
theorem read_pilot_case3_eq (TO_RAD : D) (cfg : Config D) (out : List String) :
    read_pilot_case3 TO_RAD cfg out =
      read_pilot_case4 TO_RAD cfg (out ++ [error_at "read_pilot"]) := by
  unfold read_pilot_case3
  split <;> rfl

/-- When `case 4` returns a pilot, it is the optimistic pilot built from the nine values
of its condition and the state `read_state` returned. -/
theorem read_pilot_case4_inv (TO_RAD : D) (cfg : Config D) (out : List String) (p : pilot D)
    (h : (read_pilot_case4 TO_RAD cfg out).res = .returned (some p)) :
    ∃ f s, read_pilot_case4_fields cfg = some f ∧
      p = .optimistic_pilot (.beeler_glider s {}) f.sc_path f.envt_cfg_path f.noise_stddev
        (f.arm * TO_RAD) f.kd f.dt f.sdt f.df f.bd := by
  unfold read_pilot_case4 at h
  cases hf : read_pilot_case4_fields cfg with
  | none => rw [hf] at h; cases h
  | some f =>
    rw [hf] at h
    cases hs : read_state TO_RAD cfg state_defaults with
    | mk out' res =>
      rw [hs] at h
      cases res with
      | threw e => cases h
      | returned s =>
        simp only [Completion.returned.injEq, Option.some.injEq] at h
        exact ⟨f, s, rfl, h.symm⟩

/-- When the condition of `case 4` fails, the block writes one failure line and the
method returns the null handle. -/
theorem read_pilot_case4_of_none (TO_RAD : D) (cfg : Config D) (out : List String)
    (h : read_pilot_case4_fields cfg = none) :
    read_pilot_case4 TO_RAD cfg out = ⟨out ++ [error_at "read_pilot"], .returned none⟩ := by
  unfold read_pilot_case4
  rw [h]

/-- Entered without a readable `angle_rate_magnitude` or `kdalpha`, `case 1` and the blocks
after it fail one after the other and the method returns the null handle. -/
theorem read_pilot_case1_of_unreadable (TO_RAD : D) (cfg : Config D) (out : List String)
    (h : cfg.lookupValueDouble "angle_rate_magnitude" = none ∨
      cfg.lookupValueDouble "kdalpha" = none) :
    (read_pilot_case1 TO_RAD cfg out).res = .returned none := by
  obtain ⟨h1, h2, h4⟩ := read_pilot_fields_none cfg h
  unfold read_pilot_case1 read_pilot_case2
  rw [h1, h2, read_pilot_case3_eq, read_pilot_case4_of_none _ _ _ h4]

/-- What `read_pilot` has read when it returns a pilot. -/
theorem read_pilot_inv (TO_RAD : D) (cfg : Config D) (p : pilot D)
    (h : (read_pilot TO_RAD cfg).res = .returned (some p)) :
    (cfg.lookupUInt "pilot_selector" = .ok 0 ∧
      ∃ a, cfg.lookupValueDouble "angle_rate_magnitude" = some a ∧
        p = .passive_pilot (a * TO_RAD)) ∨
    (cfg.lookupUInt "pilot_selector" = .ok 1 ∧
      ∃ a k, read_pilot_case1_fields cfg = some (a, k) ∧
        p = .heuristic_pilot (a * TO_RAD) k) ∨
    (cfg.lookupUInt "pilot_selector" = .ok 2 ∧
      ∃ a k e l d, read_pilot_case2_fields cfg = some (a, k, e, l, d) ∧
        p = .q_learning_pilot (a * TO_RAD) k e l d) ∨
    ((cfg.lookupUInt "pilot_selector" = .ok 2 ∨ cfg.lookupUInt "pilot_selector" = .ok 3 ∨
        cfg.lookupUInt "pilot_selector" = .ok 4) ∧
      ∃ f s, read_pilot_case4_fields cfg = some f ∧
        p = .optimistic_pilot (.beeler_glider s {}) f.sc_path f.envt_cfg_path f.noise_stddev
          (f.arm * TO_RAD) f.kd f.dt f.sdt f.df f.bd) := by
  unfold read_pilot at h
  cases hex : cfg.exists_ "pilot_selector" with
  | false => rw [hex] at h; cases h
  | true =>
    cases hl : cfg.lookupUInt "pilot_selector" with
    | error e => simp [hex, hl] at h
    | ok n =>
      simp only [hex, hl, if_true] at h
      match n, h with
      | 0, h =>
        left
        refine ⟨rfl, ?_⟩
        unfold read_pilot_case0 at h
        cases ha : cfg.lookupValueDouble "angle_rate_magnitude" with
        | none =>
          rw [ha, read_pilot_case1_of_unreadable _ _ _ (Or.inl ha)] at h
          cases h
        | some a =>
          rw [ha] at h
          simp only [Completion.returned.injEq, Option.some.injEq] at h
          exact ⟨a, rfl, h.symm⟩
      | 1, h =>
        right; left
        refine ⟨rfl, ?_⟩
        cases hf : read_pilot_case1_fields cfg with
        | none =>
          have hun : cfg.lookupValueDouble "angle_rate_magnitude" = none ∨
              cfg.lookupValueDouble "kdalpha" = none := by
            cases ha : cfg.lookupValueDouble "angle_rate_magnitude" with
            | none => exact Or.inl rfl
            | some a =>
              cases hk : cfg.lookupValueDouble "kdalpha" with
              | none => exact Or.inr rfl
              | some k =>
                rw [(read_pilot_case1_fields_some cfg a k).2 ⟨ha, hk⟩] at hf
                cases hf
          rw [read_pilot_case1_of_unreadable _ _ _ hun] at h
          cases h
        | some f =>
          obtain ⟨a, k⟩ := f
          unfold read_pilot_case1 at h
          rw [hf] at h
          simp only [Completion.returned.injEq, Option.some.injEq] at h
          exact ⟨a, k, rfl, h.symm⟩
      | 2, h =>
        right; right
        unfold read_pilot_case2 at h
        cases hf : read_pilot_case2_fields cfg with
        | none =>
          right
          rw [hf, read_pilot_case3_eq] at h
          exact ⟨Or.inl rfl, read_pilot_case4_inv _ _ _ _ h⟩
        | some f =>
          left
          obtain ⟨a, k, e, l, d⟩ := f
          rw [hf] at h
          simp only [Completion.returned.injEq, Option.some.injEq] at h
          exact ⟨rfl, a, k, e, l, d, rfl, h.symm⟩
      | 3, h =>
        right; right; right
        rw [read_pilot_case3_eq] at h
        exact ⟨Or.inr (Or.inl rfl), read_pilot_case4_inv _ _ _ _ h⟩
      | 4, h =>
        right; right; right
        exact ⟨Or.inr (Or.inr rfl), read_pilot_case4_inv _ _ _ _ h⟩
      | m + 5, h => cases h

end PilotLemmas

/-! ## The pilot factory: what is built, and with which angular rate -/

section Pilot
variable {D : Type} [Mul D] [Zero D]

/-- C17: whenever `read_pilot` returns a pilot, of whichever class, `angle_rate_magnitude`
is readable in the document and the angular-rate magnitude the pilot was constructed with is
the document value multiplied by `TO_RAD`, once. -/
theorem read_pilot_arm_in_radians (TO_RAD : D) (cfg : Config D) (p : pilot D)
    (h : (read_pilot TO_RAD cfg).res = .returned (some p)) :
    ∃ a, cfg.lookupValueDouble "angle_rate_magnitude" = some a ∧ p.arm = a * TO_RAD := by
  rcases read_pilot_inv TO_RAD cfg p h with
    ⟨_, a, ha, rfl⟩ | ⟨_, a, k, hf, rfl⟩ | ⟨_, a, k, e, l, d, hf, rfl⟩ | ⟨_, f, s, hf, rfl⟩
  · exact ⟨a, ha, rfl⟩
  · exact ⟨a, ((read_pilot_case1_fields_some cfg a k).1 hf).1, rfl⟩
  · exact ⟨a, ((read_pilot_case2_fields_some cfg a k e l d).1 hf).1, rfl⟩
  · exact ⟨f.arm, (read_pilot_case4_fields_some cfg f hf).2.2.2.1, rfl⟩

/-- C19: `read_pilot` returns a passive pilot exactly when the selector reads 0 and
`angle_rate_magnitude` is readable, a heuristic pilot exactly when the selector reads 1 and
`angle_rate_magnitude`, `kdalpha` are readable, a Q-learning pilot exactly when the selector
reads 2 and its five fields are readable, each built with the values read; a returned pilot
whose class is not the one of the selector is an optimistic pilot, and the selector then
reads 2 or 3; and for the selectors 0, 1 and 4 an unreadable required field gives the null
handle. -/
theorem read_pilot_variants (TO_RAD : D) (cfg : Config D) :
    (∀ x, (read_pilot TO_RAD cfg).res = .returned (some (.passive_pilot x)) ↔
      cfg.lookupUInt "pilot_selector" = .ok 0 ∧
      ∃ a, cfg.lookupValueDouble "angle_rate_magnitude" = some a ∧ x = a * TO_RAD) ∧
    (∀ x k, (read_pilot TO_RAD cfg).res = .returned (some (.heuristic_pilot x k)) ↔
      cfg.lookupUInt "pilot_selector" = .ok 1 ∧
      ∃ a, cfg.lookupValueDouble "angle_rate_magnitude" = some a ∧
        cfg.lookupValueDouble "kdalpha" = some k ∧ x = a * TO_RAD) ∧
    (∀ x k e l d,
      (read_pilot TO_RAD cfg).res = .returned (some (.q_learning_pilot x k e l d)) ↔
      cfg.lookupUInt "pilot_selector" = .ok 2 ∧
      ∃ a, cfg.lookupValueDouble "angle_rate_magnitude" = some a ∧
        cfg.lookupValueDouble "kdalpha" = some k ∧
        cfg.lookupValueDouble "q_epsilon" = some e ∧
        cfg.lookupValueDouble "q_learning_rate" = some l ∧
        cfg.lookupValueDouble "q_discount_factor" = some d ∧ x = a * TO_RAD) ∧
    (∀ n p, cfg.lookupUInt "pilot_selector" = .ok n →
      (read_pilot TO_RAD cfg).res = .returned (some p) → p.variant ≠ n →
      p.variant = 4 ∧ (n = 2 ∨ n = 3)) ∧
    (cfg.lookupUInt "pilot_selector" = .ok 0 →
      cfg.lookupValueDouble "angle_rate_magnitude" = none →
      (read_pilot TO_RAD cfg).res = .returned none) ∧
    (cfg.lookupUInt "pilot_selector" = .ok 1 →
      cfg.lookupValueDouble "angle_rate_magnitude" = none ∨
        cfg.lookupValueDouble "kdalpha" = none →
      (read_pilot TO_RAD cfg).res = .returned none) ∧
    (cfg.lookupUInt "pilot_selector" = .ok 4 →
      cfg.lookupValueString "th_scenario_path" = none ∨
        cfg.lookupValueString "envt_cfg_path" = none ∨
        cfg.lookupValueDouble "noise_stddev" = none ∨
        cfg.lookupValueDouble "angle_rate_magnitude" = none ∨
        cfg.lookupValueDouble "kdalpha" = none ∨
        cfg.lookupValueDouble "opt_time_step_width" = none ∨
        cfg.lookupValueDouble "opt_sub_time_step_width" = none ∨
        cfg.lookupValueDouble "opt_discount_factor" = none ∨
        cfg.lookupValueUInt "opt_budget" = none →
      (read_pilot TO_RAD cfg).res = .returned none) := by
  refine ⟨?_, ?_, ?_, ?_, ?_, ?_, ?_⟩
  · intro x
    constructor
    · intro h
      rcases read_pilot_inv TO_RAD cfg _ h with
        ⟨hs, a, ha, hp⟩ | ⟨_, a, k, _, hp⟩ | ⟨_, a, k, e, l, d, _, hp⟩ | ⟨_, f, s, _, hp⟩
      · simp only [pilot.passive_pilot.injEq] at hp
        exact ⟨hs, a, ha, hp⟩
      · cases hp
      · cases hp
      · cases hp
    · rintro ⟨hs, a, ha, rfl⟩
      simp [read_pilot, exists_of_lookupUInt cfg _ _ hs, hs, read_pilot_case0, ha]
  · intro x k
    constructor
    · intro h
      rcases read_pilot_inv TO_RAD cfg _ h with
        ⟨_, a, _, hp⟩ | ⟨hs, a, k', hf, hp⟩ | ⟨_, a, k', e, l, d, _, hp⟩ | ⟨_, f, s, _, hp⟩
      · cases hp
      · simp only [pilot.heuristic_pilot.injEq] at hp
        obtain ⟨rfl, rfl⟩ := hp
        obtain ⟨ha, hk⟩ := (read_pilot_case1_fields_some cfg a k).1 hf
        exact ⟨hs, a, ha, hk, rfl⟩
      · cases hp
      · cases hp
    · rintro ⟨hs, a, ha, hk, rfl⟩
      simp [read_pilot, exists_of_lookupUInt cfg _ _ hs, hs, read_pilot_case1,
        (read_pilot_case1_fields_some cfg a k).2 ⟨ha, hk⟩]
  · intro x k e l d
    constructor
    · intro h
      rcases read_pilot_inv TO_RAD cfg _ h with
        ⟨_, a, _, hp⟩ | ⟨_, a, k', _, hp⟩ | ⟨hs, a, k', e', l', d', hf, hp⟩ | ⟨_, f, s, _, hp⟩
      · cases hp
      · cases hp
      · simp only [pilot.q_learning_pilot.injEq] at hp
        obtain ⟨rfl, rfl, rfl, rfl, rfl⟩ := hp
        obtain ⟨ha, hk, he, hl, hd⟩ := (read_pilot_case2_fields_some cfg a k e l d).1 hf
        exact ⟨hs, a, ha, hk, he, hl, hd, rfl⟩
      · cases hp
    · rintro ⟨hs, a, ha, hk, he, hl, hd, rfl⟩
      simp [read_pilot, exists_of_lookupUInt cfg _ _ hs, hs, read_pilot_case2,
        (read_pilot_case2_fields_some cfg a k e l d).2 ⟨ha, hk, he, hl, hd⟩]
  · intro n p hn h hne
    rcases read_pilot_inv TO_RAD cfg p h with
      ⟨hs, a, _, rfl⟩ | ⟨hs, a, k, _, rfl⟩ | ⟨hs, a, k, e, l, d, _, rfl⟩ | ⟨hs, f, s, _, rfl⟩
    · rw [hn] at hs
      cases hs
      exact absurd rfl hne
    · rw [hn] at hs
      cases hs
      exact absurd rfl hne
    · rw [hn] at hs
      cases hs
      exact absurd rfl hne
    · refine ⟨rfl, ?_⟩
      rcases hs with hs | hs | hs
      · rw [hn] at hs
        cases hs
        exact Or.inl rfl
      · rw [hn] at hs
        cases hs
        exact Or.inr rfl
      · rw [hn] at hs
        cases hs
        exact absurd rfl hne
  · intro hs ha
    simp only [read_pilot, exists_of_lookupUInt cfg _ _ hs, hs, if_true, read_pilot_case0, ha]
    exact read_pilot_case1_of_unreadable _ _ _ (Or.inl ha)
  · intro hs hun
    simp only [read_pilot, exists_of_lookupUInt cfg _ _ hs, hs, if_true]
    exact read_pilot_case1_of_unreadable _ _ _ hun
  · intro hs hun
    have hnone : read_pilot_case4_fields cfg = none := by
      cases hf : read_pilot_case4_fields cfg with
      | none => rfl
      | some f =>
        obtain ⟨hsc, hec, hns, harm, hkd, hdt, hsdt, hdf, hbd⟩ :=
          read_pilot_case4_fields_some cfg f hf
        rw [hsc, hec, hns, harm, hkd, hdt, hsdt, hdf, hbd] at hun
        simp at hun
    simp only [read_pilot, exists_of_lookupUInt cfg _ _ hs, hs, if_true,
      read_pilot_case4_of_none _ _ _ hnone]

/-- Selector 4 with the nine fields of the optimistic planner readable, in two cases of the
state vector: when the ten state keys are readable `read_pilot` writes nothing and the
embedded glider has the state `(x0, y0, z0, V0)` and the six angles multiplied by `TO_RAD`;
when a state key is absent the pilot is built all the same, exactly one line is written,
the failure line of `read_state`, and the six angles of the embedded state are 0. -/
theorem read_pilot_optimistic (TO_RAD : D) (cfg : Config D) (sc ec : String)
    (ns a k dt sdt df : D) (bd : Nat)
    (hsel : cfg.lookupUInt "pilot_selector" = .ok 4)
    (h1 : cfg.lookupValueString "th_scenario_path" = some sc)
    (h2 : cfg.lookupValueString "envt_cfg_path" = some ec)
    (h3 : cfg.lookupValueDouble "noise_stddev" = some ns)
    (h4 : cfg.lookupValueDouble "angle_rate_magnitude" = some a)
    (h5 : cfg.lookupValueDouble "kdalpha" = some k)
    (h6 : cfg.lookupValueDouble "opt_time_step_width" = some dt)
    (h7 : cfg.lookupValueDouble "opt_sub_time_step_width" = some sdt)
    (h8 : cfg.lookupValueDouble "opt_discount_factor" = some df)
    (h9 : cfg.lookupValueUInt "opt_budget" = some bd) :
    (∀ x y z V g kh al b sg m,
      cfg.lookupValueDouble "x0" = some x → cfg.lookupValueDouble "y0" = some y →
      cfg.lookupValueDouble "z0" = some z → cfg.lookupValueDouble "V0" = some V →
      cfg.lookupValueDouble "gamma0" = some g → cfg.lookupValueDouble "khi0" = some kh →
      cfg.lookupValueDouble "alpha0" = some al → cfg.lookupValueDouble "beta0" = some b →
      cfg.lookupValueDouble "sigma0" = some sg →
      cfg.lookupValueDouble "maximum_angle_magnitude" = some m →
      read_pilot TO_RAD cfg =
        ⟨[], .returned (some (.optimistic_pilot
          (.beeler_glider ⟨x, y, z, V, g * TO_RAD, kh * TO_RAD, al * TO_RAD, b * TO_RAD,
            sg * TO_RAD, m * TO_RAD⟩ {})
          sc ec ns (a * TO_RAD) k dt sdt df bd))⟩) ∧
    ((∃ key ∈ state_keys, cfg.exists_ key = false) →
      ∃ s : beeler_glider_state D,
        read_pilot TO_RAD cfg =
          ⟨[error_at "read_state"], .returned (some (.optimistic_pilot
            (.beeler_glider s {}) sc ec ns (a * TO_RAD) k dt sdt df bd))⟩ ∧
        s.gamma0 = 0 ∧ s.khi0 = 0 ∧ s.alpha0 = 0 ∧ s.beta0 = 0 ∧ s.sigma0 = 0 ∧ s.mam = 0) := by
  have hf : read_pilot_case4_fields cfg = some ⟨sc, ec, ns, a, k, dt, sdt, df, bd⟩ := by
    simp [read_pilot_case4_fields, h1, h2, h3, h4, h5, h6, h7, h8, h9]
  constructor
  · intro x y z V g kh al b sg m hx hy hz hV hg hkh hal hb hsg hm
    simp [read_pilot, exists_of_lookupUInt cfg _ _ hsel, hsel, read_pilot_case4, hf,
      read_state_of_readable TO_RAD cfg state_defaults x y z V g kh al b sg m
        hx hy hz hV hg hkh hal hb hsg hm]
  · intro habs
    obtain ⟨s, hs, g1, g2, g3, g4, g5, g6⟩ :=
      read_state_of_absent TO_RAD cfg state_defaults habs
    refine ⟨s, ?_, g1, g2, g3, g4, g5, g6⟩
    simp [read_pilot, exists_of_lookupUInt cfg _ _ hsel, hsel, read_pilot_case4, hf, hs]

end Pilot

/-- C17 (witness): the optimistic pilot `read_pilot` returns for `doc_optimistic`. -/
theorem read_pilot_arm_in_radians_witness :
    ∃ a, doc_optimistic.lookupValueDouble "angle_rate_magnitude" = some a ∧
      (pilot.optimistic_pilot
        (.beeler_glider
          ⟨0, 0, 1000, 20, 0 * TO_RAD_example, 90 * TO_RAD_example, 2 * TO_RAD_example,
           0 * TO_RAD_example, 5 * TO_RAD_example, 30 * TO_RAD_example⟩ {})
        "config/thermal_scenario.csv" "config/fz_config.csv" 0.1
        (15 * TO_RAD_example) 0.02 0.1 0.1 0.9 1000).arm = a * TO_RAD_example :=
  read_pilot_arm_in_radians TO_RAD_example doc_optimistic _ rfl

/-- C19 (witness): for `doc_scenario_B` the heuristic pilot is returned, and for
`doc_passive_no_arm` the null handle. -/
theorem read_pilot_variants_witness :
    (read_pilot TO_RAD_example doc_scenario_B).res =
      .returned (some (.heuristic_pilot (15 * TO_RAD_example) 0.02)) ∧
    (read_pilot TO_RAD_example doc_passive_no_arm).res = .returned none :=
  ⟨((read_pilot_variants TO_RAD_example doc_scenario_B).2.1 _ _).2 ⟨rfl, 15, rfl, rfl, rfl⟩,
   (read_pilot_variants TO_RAD_example doc_passive_no_arm).2.2.2.2.1 rfl rfl⟩

/-! ## Partial writes of `read_state` -/

/-- The six assignments of the angular outputs leave the first four outputs as they are. -/
theorem read_state_angles_frame {D : Type} [Mul D] (TO_RAD : D) (cfg : Config D)
    (s s' : beeler_glider_state D) (h : read_state_angles TO_RAD cfg s = .ok s') :
    s'.x0 = s.x0 ∧ s'.y0 = s.y0 ∧ s'.z0 = s.z0 ∧ s'.V0 = s.V0 := by
  unfold read_state_angles at h
  cases h1 : cfg.lookupDouble "gamma0" <;> cases h2 : cfg.lookupDouble "khi0" <;>
    cases h3 : cfg.lookupDouble "alpha0" <;> cases h4 : cfg.lookupDouble "beta0" <;>
    cases h5 : cfg.lookupDouble "sigma0" <;>
    cases h6 : cfg.lookupDouble "maximum_angle_magnitude" <;>
    simp only [h1, h2, h3, h4, h5, h6, bind, Except.bind, pure, Except.pure,
      Except.ok.injEq, reduceCtorEq] at h
  subst h
  exact ⟨rfl, rfl, rfl, rfl⟩

/-- C18: for every document and every caller's values `s`: when the first unreadable key
among `x0`, `y0`, `z0`, `V0` is `x0`, `read_state` fails and returns `s` unchanged; when it
is `y0`, `z0` or `V0`, `read_state` fails, the outputs before that key hold the document
values and all the others keep the caller's values; when the four are readable and an
angular key is absent, `read_state` fails with the four document values written; and
whenever the four are readable and `read_state` returns, they hold the document values.
For the document `doc_state_no_y0`, where `x0` is present and `y0` absent, the read is
reported failed and `_x0` differs from the caller's value. -/
theorem read_state_partial_writes :
    (∀ (D : Type) [Mul D] (TO_RAD : D) (cfg : Config D) (s : beeler_glider_state D),
      (cfg.lookupValueDouble "x0" = none →
        read_state TO_RAD cfg s = ⟨[error_at "read_state"], .returned s⟩) ∧
      (∀ x, cfg.lookupValueDouble "x0" = some x → cfg.lookupValueDouble "y0" = none →
        read_state TO_RAD cfg s = ⟨[error_at "read_state"], .returned { s with x0 := x }⟩) ∧
      (∀ x y, cfg.lookupValueDouble "x0" = some x → cfg.lookupValueDouble "y0" = some y →
        cfg.lookupValueDouble "z0" = none →
        read_state TO_RAD cfg s =
          ⟨[error_at "read_state"], .returned { s with x0 := x, y0 := y }⟩) ∧
      (∀ x y z, cfg.lookupValueDouble "x0" = some x → cfg.lookupValueDouble "y0" = some y →
        cfg.lookupValueDouble "z0" = some z → cfg.lookupValueDouble "V0" = none →
        read_state TO_RAD cfg s =
          ⟨[error_at "read_state"], .returned { s with x0 := x, y0 := y, z0 := z }⟩) ∧
      (∀ x y z V, cfg.lookupValueDouble "x0" = some x → cfg.lookupValueDouble "y0" = some y →
        cfg.lookupValueDouble "z0" = some z → cfg.lookupValueDouble "V0" = some V →
        ((∃ key ∈ ["gamma0", "khi0", "alpha0", "beta0", "sigma0", "maximum_angle_magnitude"],
            cfg.exists_ key = false) →
          read_state TO_RAD cfg s =
            ⟨[error_at "read_state"],
             .returned { s with x0 := x, y0 := y, z0 := z, V0 := V }⟩) ∧
        (∀ s', (read_state TO_RAD cfg s).res = .returned s' →
          s'.x0 = x ∧ s'.y0 = y ∧ s'.z0 = z ∧ s'.V0 = V))) ∧
    (doc_state_no_y0.exists_ "x0" = true ∧ doc_state_no_y0.exists_ "y0" = false ∧
      (read_state TO_RAD_example doc_state_no_y0 state_seed).out = [error_at "read_state"] ∧
      ∃ s', (read_state TO_RAD_example doc_state_no_y0 state_seed).res = .returned s' ∧
        s'.x0 ≠ state_seed.x0) := by
  constructor
  · intro D _ TO_RAD cfg s
    refine ⟨?_, ?_, ?_, ?_, ?_⟩
    · intro hx
      simp [read_state, hx]
    · intro x hx hy
      simp [read_state, hx, hy]
    · intro x y hx hy hz
      simp [read_state, hx, hy, hz]
    · intro x y z hx hy hz hV
      simp [read_state, hx, hy, hz, hV]
    · intro x y z V hx hy hz hV
      constructor
      · rintro ⟨key, hkey, habs⟩
        have hang : read_state_angles_exist cfg = false := by
          simp only [List.mem_cons, List.mem_singleton, List.not_mem_nil, or_false] at hkey
          rcases hkey with rfl | rfl | rfl | rfl | rfl | rfl <;>
            simp [read_state_angles_exist, habs]
        simp [read_state, hx, hy, hz, hV, hang]
      · intro s' hs'
        simp only [read_state, hx, hy, hz, hV] at hs'
        split at hs'
        · split at hs'
          · rename_i s2 hs2
            simp only [Completion.returned.injEq] at hs'
            rw [← hs']
            exact read_state_angles_frame TO_RAD cfg _ s2 hs2
          · cases hs'
        · simp only [Completion.returned.injEq] at hs'
          subst hs'
          exact ⟨rfl, rfl, rfl, rfl⟩
  · refine ⟨rfl, rfl, rfl, ⟨10, -2, -3, -4, -5, -6, -7, -8, -9, -10⟩, rfl, ?_⟩
    show (10 : ℚ) ≠ state_seed.x0
    simp only [state_seed]
    norm_num

/-- C18 (witness): at `doc_state_no_y0` with the caller's values `state_seed`, `_x0` holds
the document value 10 and the nine other outputs the caller's values. -/
theorem read_state_partial_writes_witness :
    read_state TO_RAD_example doc_state_no_y0 state_seed =
      ⟨[error_at "read_state"], .returned ⟨10, -2, -3, -4, -5, -6, -7, -8, -9, -10⟩⟩ :=
  (read_state_partial_writes.1 ℚ TO_RAD_example doc_state_no_y0 state_seed).2.1 10 rfl rfl

/-! ## The optimistic pilot and the state vector -/

/-- C20 (counterexample): `doc_optimistic_int_gamma0` has pilot selector 4, the nine fields
of the optimistic planner readable and the ten state keys present, with `gamma0` an integer
setting; `read_pilot` returns no pilot: the conversion of `gamma0` in `read_state` throws. -/
theorem read_pilot_optimistic_int_gamma0 :
    doc_optimistic_int_gamma0.lookupUInt "pilot_selector" = .ok 4 ∧
    read_pilot_case4_fields doc_optimistic_int_gamma0 =
      some ⟨"config/thermal_scenario.csv", "config/fz_config.csv", 0.1, 15, 0.02, 0.1, 0.1,
        0.9, 1000⟩ ∧
    (∀ key ∈ state_keys, doc_optimistic_int_gamma0.exists_ key = true) ∧
    read_pilot TO_RAD_example doc_optimistic_int_gamma0 =
      ⟨[], .threw .SettingTypeException⟩ ∧
    ∀ p, (read_pilot TO_RAD_example doc_optimistic_int_gamma0).res ≠ .returned (some p) := by
  refine ⟨rfl, rfl, by decide, rfl, ?_⟩
  intro p hp
  have h : read_pilot TO_RAD_example doc_optimistic_int_gamma0 =
      ⟨[], .threw .SettingTypeException⟩ := rfl
  rw [h] at hp
  cases hp

section OptimisticState
variable {D : Type} [Mul D]

/-- When one of `x0`, `y0`, `z0`, `V0` is not readable or one of the six existence checks
fails, `read_state` writes one line and returns, and the six angular outputs keep the values
they had on entry. -/
theorem read_state_of_failed_condition (TO_RAD : D) (cfg : Config D)
    (s : beeler_glider_state D)
    (hcase : cfg.lookupValueDouble "x0" = none ∨ cfg.lookupValueDouble "y0" = none ∨
      cfg.lookupValueDouble "z0" = none ∨ cfg.lookupValueDouble "V0" = none ∨
      read_state_angles_exist cfg = false) :
    ∃ s', read_state TO_RAD cfg s = ⟨[error_at "read_state"], .returned s'⟩ ∧
      s'.gamma0 = s.gamma0 ∧ s'.khi0 = s.khi0 ∧ s'.alpha0 = s.alpha0 ∧
      s'.beta0 = s.beta0 ∧ s'.sigma0 = s.sigma0 ∧ s'.mam = s.mam := by
  unfold read_state
  cases hx : cfg.lookupValueDouble "x0" with
  | none => exact ⟨_, rfl, rfl, rfl, rfl, rfl, rfl, rfl⟩
  | some x =>
    cases hy : cfg.lookupValueDouble "y0" with
    | none => exact ⟨_, rfl, rfl, rfl, rfl, rfl, rfl, rfl⟩
    | some y =>
      cases hz : cfg.lookupValueDouble "z0" with
      | none => exact ⟨_, rfl, rfl, rfl, rfl, rfl, rfl, rfl⟩
      | some z =>
        cases hV : cfg.lookupValueDouble "V0" with
        | none => exact ⟨_, rfl, rfl, rfl, rfl, rfl, rfl, rfl⟩
        | some V =>
          have hang : read_state_angles_exist cfg = false := by
            rcases hcase with h | h | h | h | h
            · rw [hx] at h; cases h
            · rw [hy] at h; cases h
            · rw [hz] at h; cases h
            · rw [hV] at h; cases h
            · exact h
          simp only [hang]
          exact ⟨_, rfl, rfl, rfl, rfl, rfl, rfl, rfl⟩

variable [Zero D]

/-- C20 (amended): when the pilot selector reads 4 and the nine fields of the optimistic
planner are readable, then, outside the one case where `x0`, `y0`, `z0`, `V0` are readable,
the six angular keys are present and one of them is not readable as a number, `read_pilot`
returns an optimistic pilot built with the values read and `arm * TO_RAD`.  When the ten
state keys are readable it writes nothing and the embedded glider has the state
`(x0, y0, z0, V0)` and the six angles multiplied by `TO_RAD`.  When a state key is absent,
or one of `x0`, `y0`, `z0`, `V0` is not readable, the pilot is built all the same, exactly
one line is written, the failure line of `read_state`, and the six angles of the embedded
state are 0. -/
theorem read_pilot_optimistic_cases (TO_RAD : D) (cfg : Config D) (sc ec : String)
    (ns a k dt sdt df : D) (bd : Nat)
    (hsel : cfg.lookupUInt "pilot_selector" = .ok 4)
    (h1 : cfg.lookupValueString "th_scenario_path" = some sc)
    (h2 : cfg.lookupValueString "envt_cfg_path" = some ec)
    (h3 : cfg.lookupValueDouble "noise_stddev" = some ns)
    (h4 : cfg.lookupValueDouble "angle_rate_magnitude" = some a)
    (h5 : cfg.lookupValueDouble "kdalpha" = some k)
    (h6 : cfg.lookupValueDouble "opt_time_step_width" = some dt)
    (h7 : cfg.lookupValueDouble "opt_sub_time_step_width" = some sdt)
    (h8 : cfg.lookupValueDouble "opt_discount_factor" = some df)
    (h9 : cfg.lookupValueUInt "opt_budget" = some bd) :
    (¬ ((∀ key ∈ position_keys, cfg.lookupValueDouble key ≠ none) ∧
        (∀ key ∈ angle_keys, cfg.exists_ key = true) ∧
        (∃ key ∈ angle_keys, cfg.lookupValueDouble key = none)) →
      ∃ out s, read_pilot TO_RAD cfg =
        ⟨out, .returned (some (.optimistic_pilot
          (.beeler_glider s {}) sc ec ns (a * TO_RAD) k dt sdt df bd))⟩) ∧
    (∀ x y z V g kh al b sg m,
      cfg.lookupValueDouble "x0" = some x → cfg.lookupValueDouble "y0" = some y →
      cfg.lookupValueDouble "z0" = some z → cfg.lookupValueDouble "V0" = some V →
      cfg.lookupValueDouble "gamma0" = some g → cfg.lookupValueDouble "khi0" = some kh →
      cfg.lookupValueDouble "alpha0" = some al → cfg.lookupValueDouble "beta0" = some b →
      cfg.lookupValueDouble "sigma0" = some sg →
      cfg.lookupValueDouble "maximum_angle_magnitude" = some m →
      read_pilot TO_RAD cfg =
        ⟨[], .returned (some (.optimistic_pilot
          (.beeler_glider ⟨x, y, z, V, g * TO_RAD, kh * TO_RAD, al * TO_RAD, b * TO_RAD,
            sg * TO_RAD, m * TO_RAD⟩ {})
          sc ec ns (a * TO_RAD) k dt sdt df bd))⟩) ∧
    ((∃ key ∈ state_keys, cfg.exists_ key = false) ∨
        (∃ key ∈ position_keys, cfg.lookupValueDouble key = none) →
      ∃ s : beeler_glider_state D,
        read_pilot TO_RAD cfg =
          ⟨[error_at "read_state"], .returned (some (.optimistic_pilot
            (.beeler_glider s {}) sc ec ns (a * TO_RAD) k dt sdt df bd))⟩ ∧
        s.gamma0 = 0 ∧ s.khi0 = 0 ∧ s.alpha0 = 0 ∧ s.beta0 = 0 ∧ s.sigma0 = 0 ∧ s.mam = 0) := by
  have hf : read_pilot_case4_fields cfg = some ⟨sc, ec, ns, a, k, dt, sdt, df, bd⟩ := by
    simp [read_pilot_case4_fields, h1, h2, h3, h4, h5, h6, h7, h8, h9]
  have hread := (read_pilot_optimistic TO_RAD cfg sc ec ns a k dt sdt df bd
    hsel h1 h2 h3 h4 h5 h6 h7 h8 h9).1
  have hfail : ∀ hcase : cfg.lookupValueDouble "x0" = none ∨
      cfg.lookupValueDouble "y0" = none ∨ cfg.lookupValueDouble "z0" = none ∨
      cfg.lookupValueDouble "V0" = none ∨ read_state_angles_exist cfg = false,
      ∃ s : beeler_glider_state D,
        read_pilot TO_RAD cfg =
          ⟨[error_at "read_state"], .returned (some (.optimistic_pilot
            (.beeler_glider s {}) sc ec ns (a * TO_RAD) k dt sdt df bd))⟩ ∧
        s.gamma0 = 0 ∧ s.khi0 = 0 ∧ s.alpha0 = 0 ∧ s.beta0 = 0 ∧ s.sigma0 = 0 ∧
        s.mam = 0 := by
    intro hcase
    obtain ⟨s, hs, g1, g2, g3, g4, g5, g6⟩ :=
      read_state_of_failed_condition TO_RAD cfg state_defaults hcase
    refine ⟨s, ?_, g1, g2, g3, g4, g5, g6⟩
    simp [read_pilot, exists_of_lookupUInt cfg _ _ hsel, hsel, read_pilot_case4, hf, hs]
  refine ⟨?_, hread, ?_⟩
  · intro hE
    by_cases hcase : cfg.lookupValueDouble "x0" = none ∨
        cfg.lookupValueDouble "y0" = none ∨ cfg.lookupValueDouble "z0" = none ∨
        cfg.lookupValueDouble "V0" = none ∨ read_state_angles_exist cfg = false
    · obtain ⟨s, hs, _⟩ := hfail hcase
      exact ⟨_, s, hs⟩
    · simp only [not_or] at hcase
      obtain ⟨nx, ny, nz, nV, nexist⟩ := hcase
      have hexist : read_state_angles_exist cfg = true := by
        cases hb : read_state_angles_exist cfg with
        | true => rfl
        | false => exact absurd hb nexist
      simp only [read_state_angles_exist, Bool.and_eq_true] at hexist
      obtain ⟨⟨⟨⟨⟨e1, e2⟩, e3⟩, e4⟩, e5⟩, e6⟩ := hexist
      have hpos : ∀ key ∈ position_keys, cfg.lookupValueDouble key ≠ none := by
        intro key hkey
        simp only [position_keys, List.mem_cons, List.mem_singleton, List.not_mem_nil,
          or_false] at hkey
        rcases hkey with rfl | rfl | rfl | rfl
        · exact nx
        · exact ny
        · exact nz
        · exact nV
      have hang : ∀ key ∈ angle_keys, cfg.exists_ key = true := by
        intro key hkey
        simp only [angle_keys, List.mem_cons, List.mem_singleton, List.not_mem_nil,
          or_false] at hkey
        rcases hkey with rfl | rfl | rfl | rfl | rfl | rfl
        · exact e1
        · exact e2
        · exact e3
        · exact e4
        · exact e5
        · exact e6
      have hall : ∀ key ∈ angle_keys, ∃ v, cfg.lookupValueDouble key = some v := by
        intro key hkey
        cases hv : cfg.lookupValueDouble key with
        | some v => exact ⟨v, rfl⟩
        | none => exact absurd ⟨hpos, hang, key, hkey, hv⟩ hE
      obtain ⟨x, hx⟩ := Option.ne_none_iff_exists'.1 nx
      obtain ⟨y, hy⟩ := Option.ne_none_iff_exists'.1 ny
      obtain ⟨z, hz⟩ := Option.ne_none_iff_exists'.1 nz
      obtain ⟨V, hV⟩ := Option.ne_none_iff_exists'.1 nV
      obtain ⟨g, hg⟩ := hall "gamma0" (by simp [angle_keys])
      obtain ⟨kh, hkh⟩ := hall "khi0" (by simp [angle_keys])
      obtain ⟨al, hal⟩ := hall "alpha0" (by simp [angle_keys])
      obtain ⟨b, hb⟩ := hall "beta0" (by simp [angle_keys])
      obtain ⟨sg, hsg⟩ := hall "sigma0" (by simp [angle_keys])
      obtain ⟨m, hm⟩ := hall "maximum_angle_magnitude" (by simp [angle_keys])
      exact ⟨_, _, hread x y z V g kh al b sg m hx hy hz hV hg hkh hal hb hsg hm⟩
  · intro habs
    apply hfail
    rcases habs with ⟨key, hkey, hno⟩ | ⟨key, hkey, hno⟩
    · simp only [state_keys, List.mem_cons, List.mem_singleton, List.not_mem_nil,
        or_false] at hkey
      rcases hkey with rfl | rfl | rfl | rfl | rfl | rfl | rfl | rfl | rfl | rfl
      · exact Or.inl (lookupValueDouble_of_absent _ _ hno)
      · exact Or.inr (Or.inl (lookupValueDouble_of_absent _ _ hno))
      · exact Or.inr (Or.inr (Or.inl (lookupValueDouble_of_absent _ _ hno)))
      · exact Or.inr (Or.inr (Or.inr (Or.inl (lookupValueDouble_of_absent _ _ hno))))
      all_goals
        right; right; right; right
        simp [read_state_angles_exist, hno]
    · simp only [position_keys, List.mem_cons, List.mem_singleton, List.not_mem_nil,
        or_false] at hkey
      rcases hkey with rfl | rfl | rfl | rfl
      · exact Or.inl hno
      · exact Or.inr (Or.inl hno)
      · exact Or.inr (Or.inr (Or.inl hno))
      · exact Or.inr (Or.inr (Or.inr (Or.inl hno)))

end OptimisticState

/-- C20 (witness): `doc_optimistic` holds a complete state vector, `doc_optimistic_no_state`
none, and `doc_optimistic_int_x0` a state vector whose `x0` is an integer setting; each
gives an optimistic pilot. -/
theorem read_pilot_optimistic_cases_witness :
    read_pilot TO_RAD_example doc_optimistic =
      ⟨[], .returned (some (.optimistic_pilot
        (.beeler_glider
          ⟨0, 0, 1000, 20, 0 * TO_RAD_example, 90 * TO_RAD_example, 2 * TO_RAD_example,
           0 * TO_RAD_example, 5 * TO_RAD_example, 30 * TO_RAD_example⟩ {})
        "config/thermal_scenario.csv" "config/fz_config.csv" 0.1
        (15 * TO_RAD_example) 0.02 0.1 0.1 0.9 1000))⟩ ∧
    (∃ s : beeler_glider_state ℚ,
      read_pilot TO_RAD_example doc_optimistic_no_state =
        ⟨[error_at "read_state"], .returned (some (.optimistic_pilot
          (.beeler_glider s {}) "config/thermal_scenario.csv" "config/fz_config.csv" 0.1
          (15 * TO_RAD_example) 0.02 0.1 0.1 0.9 1000))⟩ ∧
      s.gamma0 = 0 ∧ s.khi0 = 0 ∧ s.alpha0 = 0 ∧ s.beta0 = 0 ∧ s.sigma0 = 0 ∧ s.mam = 0) ∧
    (∃ s : beeler_glider_state ℚ,
      read_pilot TO_RAD_example doc_optimistic_int_x0 =
        ⟨[error_at "read_state"], .returned (some (.optimistic_pilot
          (.beeler_glider s {}) "config/thermal_scenario.csv" "config/fz_config.csv" 0.1
          (15 * TO_RAD_example) 0.02 0.1 0.1 0.9 1000))⟩ ∧
      s.gamma0 = 0 ∧ s.khi0 = 0 ∧ s.alpha0 = 0 ∧ s.beta0 = 0 ∧ s.sigma0 = 0 ∧ s.mam = 0) ∧
    (∃ out s, read_pilot TO_RAD_example doc_optimistic_no_state =
        ⟨out, .returned (some (.optimistic_pilot
          (.beeler_glider s {}) "config/thermal_scenario.csv" "config/fz_config.csv" 0.1
          (15 * TO_RAD_example) 0.02 0.1 0.1 0.9 1000))⟩) :=
  ⟨(read_pilot_optimistic_cases TO_RAD_example doc_optimistic
      "config/thermal_scenario.csv" "config/fz_config.csv" 0.1 15 0.02 0.1 0.1 0.9 1000
      rfl rfl rfl rfl rfl rfl rfl rfl rfl rfl).2.1 0 0 1000 20 0 90 2 0 5 30
      rfl rfl rfl rfl rfl rfl rfl rfl rfl rfl,
   (read_pilot_optimistic_cases TO_RAD_example doc_optimistic_no_state
      "config/thermal_scenario.csv" "config/fz_config.csv" 0.1 15 0.02 0.1 0.1 0.9 1000
      rfl rfl rfl rfl rfl rfl rfl rfl rfl rfl).2.2 (Or.inl ⟨"x0", by decide, rfl⟩),
   (read_pilot_optimistic_cases TO_RAD_example doc_optimistic_int_x0
      "config/thermal_scenario.csv" "config/fz_config.csv" 0.1 15 0.02 0.1 0.1 0.9 1000
      rfl rfl rfl rfl rfl rfl rfl rfl rfl rfl).2.2 (Or.inr ⟨"x0", by decide, rfl⟩),
   (read_pilot_optimistic_cases TO_RAD_example doc_optimistic_no_state
      "config/thermal_scenario.csv" "config/fz_config.csv" 0.1 15 0.02 0.1 0.1 0.9 1000
      rfl rfl rfl rfl rfl rfl rfl rfl rfl rfl).1
      (fun h => absurd (h.2.1 "gamma0" (by decide)) (by decide))⟩

end L2Fsim
